import Mathlib

/-!
Shallow embedding of `src/vllm/model_executor/models/gpt_bigcode.py`.

Tensors are embedded as lists of rational numbers: a 2-D tensor is a list of
row vectors (`Mat`), a 3-D tensor a list of matrices (`Tensor3`).  The
external collaborators (the tensor-parallel linear layers `c_attn`,
`c_attn_q`, `c_attn_kv`, `c_proj`, `c_fc`, the activation, the paged
attention kernel) apply row-wise and are abstract function parameters
bundled in environment structures; torch shape errors on inconsistent
collaborator shapes are not modelled.  Fallible code paths (the explicit
`raise` statements, the out-of-range `torch.gather`, the `[-1]` index on an
empty LongTensor, a read of an adapter attribute that was never created)
return `Except FwdError`.
-/

set_option linter.unusedVariables false

abbrev Vec := List ℚ
abbrev Mat := List Vec
abbrev Tensor3 := List Mat

/-- Number of columns of a 2-D tensor: `t.size(1)` read off the first row. -/
def numCols (m : Mat) : ℕ := (m.headD []).length

def dot (a b : Vec) : ℚ := (List.zipWith (fun x y => x * y) a b).sum

def colOf (m : Mat) (j : ℕ) : Vec := m.map (fun r => r.getD j 0)

/-- Plain matrix product (used batched via `bmm3`). -/
def matMul (a b : Mat) : Mat :=
  a.map (fun row => (List.range (numCols b)).map (fun j => dot row (colOf b j)))

/-- `torch.bmm(x, W.unsqueeze(0).expand(batch, -1, -1))`: the same weight
matrix multiplied against every batch slice. -/
def bmm3 (x : Tensor3) (w : Mat) : Tensor3 := x.map (fun m => matMul m w)

def hadamard (a b : Vec) : Vec := List.zipWith (fun x y => x * y) a b

def matHadamard (a b : Mat) : Mat := List.zipWith hadamard a b

/-- Elementwise product of a `[rank, n, d]` tensor with an `[n, d]` tensor
broadcast over the leading axis (`A * hidden_states`). -/
def t3HadamardMat (t : Tensor3) (m : Mat) : Tensor3 := t.map (fun rep => matHadamard rep m)

/-- Elementwise product of two `[rank, n, d]` tensors. -/
def t3Hadamard (a b : Tensor3) : Tensor3 := List.zipWith matHadamard a b

def addVec (a b : Vec) : Vec := List.zipWith (fun x y => x + y) a b

def addMat (a b : Mat) : Mat := List.zipWith addVec a b

def scaleMat (c : ℚ) (m : Mat) : Mat := m.map (fun r => r.map (fun x => c * x))

def sumT3 : Tensor3 → Mat
  | [] => []
  | x :: xs => xs.foldl addMat x

/-- `torch.mean(t, dim=0)` over the leading (rank) axis. -/
def meanDim0 (t : Tensor3) : Mat := scaleMat (1 / (t.length : ℚ)) (sumT3 t)

/-! ## Batch repacking (gpt_bigcode.py lines 102-131 / 285-303)

The code builds, from an (adjusted) per-sequence length list, a boolean
validity mask `mask[b, t] = t < lengths[b]`, in-sequence row indices
`mask.cumsum(dim=1) - 1`, per-sequence start offsets (the exclusive
cumulative sum of the lengths), and from them the flat scatter positions
`adjusted_row_indices`.  `adjusted_row_indices[mask]` flattens the masked
positions in row-major order.  Indices are `ℤ`, matching `torch.LongTensor`
(a cumsum minus one can be `-1` at a masked-out position). -/

/-- One row of the mask: `torch.arange(T) < len`. -/
def maskRow (T len : ℕ) : List Bool := (List.range T).map (fun t => decide (t < len))

/-- Running (inclusive) count of `true` entries, with an accumulator. -/
def cumsumAux (acc : ℕ) : List Bool → List ℕ
  | [] => []
  | b :: bs => (acc + if b then 1 else 0) :: cumsumAux (acc + if b then 1 else 0) bs

/-- One row of `mask.cumsum(dim=1) - 1`. -/
def rowIndicesRow (T len : ℕ) : List ℤ := (cumsumAux 0 (maskRow T len)).map (fun c : ℕ => (c : ℤ) - 1)

/-- One row of `adjusted_row_indices = row_indices + start_positions`. -/
def adjustedRow (T len : ℕ) (off : ℤ) : List ℤ := (rowIndicesRow T len).map (fun i => i + off)

/-- Boolean mask selection `vals[mask]` over one row. -/
def maskedSelect (mask : List Bool) (vals : List ℤ) : List ℤ :=
  (List.zip mask vals).filterMap (fun p => if p.1 then some p.2 else none)

/-- One sequence's contribution to `adjusted_row_indices[mask]`. -/
def maskedRow (T len : ℕ) (off : ℤ) : List ℤ := maskedSelect (maskRow T len) (adjustedRow T len off)

/-- `torch.cat([tensor([0]), lengths.cumsum(dim=0)[:-1]])`: the exclusive
cumulative sum of the lengths. -/
def startOffsets : List ℕ → List ℕ
  | [] => []
  | l :: ls => 0 :: (startOffsets ls).map (fun o => l + o)

/-- `adjusted_row_indices[mask]`, flattened row-major over all sequences. -/
def maskedIndexList (lengths : List ℕ) (T : ℕ) : List ℤ :=
  ((List.zip lengths (startOffsets lengths)).map (fun p => maskedRow T p.1 (p.2 : ℤ))).flatten

/-- `lengths.max().item()` for a list of naturals (0 on an empty list). -/
def maxList (l : List ℕ) : ℕ := l.foldr max 0

/-- `torch.zeros(n, h)`. -/
def zeroMat (n h : ℕ) : Mat := List.replicate n (List.replicate h 0)

/-- `inputs[idx] = rows` on a zero-initialized flat `[n, h]` tensor. -/
def scatterRows (n h : ℕ) (idx : List ℤ) (rows : Mat) : Mat :=
  (List.zip idx rows).foldl (fun acc p => acc.set p.1.toNat p.2) (zeroMat n h)

/-- `rect[idx]`: gather rows of a flat tensor at the given positions (the
spec's `unpack` direction of the repacking contract). -/
def gatherRows (rect : Mat) (idx : List ℤ) : Mat := idx.map (fun i => rect.getD i.toNat [])

/-- `inputs.view(batch_size, max_seq_length, hidden_size)`. -/
def reshape3 (B T : ℕ) (m : Mat) : Tensor3 := (List.range B).map (fun b => (m.drop (T * b)).take T)

/-- `sequence_lengths[-1] = sequence_lengths[-1] + padded_length`. -/
def adjustLast : List ℕ → ℕ → List ℕ
  | [], _ => []
  | [x], p => [x + p]
  | x :: y :: xs, p => x :: adjustLast (y :: xs) p

/-- Lines 103-112 / 273-282: the batch size, `max_seq_length` and the adjusted
sequence-length list used by the bmm-mode repacking.  `none` models the
IndexError of `sequence_lengths[-1]` on an empty LongTensor.  The `n - m`
is torch int64 subtraction; callers have `num_valid_tokens ≤ total rows`. -/
def bmmBatchShape (numPrompts : ℕ) (promptLens : List ℕ) (totalRows numValidTokens : ℕ) :
    Option (ℕ × ℕ × List ℕ) :=
  if 0 < numPrompts then
    match promptLens with
    | [] => none
    | x :: xs =>
      let lens := adjustLast (x :: xs) (totalRows - numValidTokens)
      some (numPrompts, maxList lens, lens)
  else some (totalRows, 1, List.replicate totalRows 1)

/-- The full validity mask, one row per sequence (line 117 / 287). -/
def sequenceMask (lengths : List ℕ) (T : ℕ) : List (List Bool) :=
  lengths.map (fun len => maskRow T len)

/-- The number of `True` entries of the validity mask. -/
def maskTrueCount (lengths : List ℕ) (T : ℕ) : ℕ :=
  ((sequenceMask lengths T).map (fun row => row.count true)).sum

/-! ## Fused QKV sharding (load_weights, lines 527-572) -/

/-- Python slice `l[a:b]` (clamping, never failing). -/
def listSlice (a b : ℕ) (l : List α) : List α := (l.drop a).take (b - a)

/-- The sharded fused-QKV weight: in multi-query mode the query slice and the
full key/value block are kept separate (loaded into `c_attn_q` / `c_attn_kv`);
otherwise the three slices are re-fused into one tensor. -/
inductive ShardedQKV
  | fused (w : Mat)
  | separate (q kv : Mat)
deriving DecidableEq

structure ShardCfg where
  totalNumHeads : ℕ
  hiddenSize : ℕ
  multiQuery : Bool
  worldSize : ℕ
deriving DecidableEq

/-- `total_kv_size = head_size * total_num_kv_heads` (line 537), with
`head_size = hidden_size // total_num_heads` and one kv head in multi-query
mode. -/
def totalKvSizeOf (cfg : ShardCfg) : ℕ :=
  (cfg.hiddenSize / cfg.totalNumHeads) * (if cfg.multiQuery then 1 else cfg.totalNumHeads)

/-- The query block `wq` of the fused weight (rows `[0, hidden_size)`). -/
def wqBlock (cfg : ShardCfg) (w : Mat) : Mat := listSlice 0 cfg.hiddenSize w

/-- The key block `wk` of the fused weight. -/
def wkBlock (cfg : ShardCfg) (w : Mat) : Mat :=
  listSlice cfg.hiddenSize (cfg.hiddenSize + totalKvSizeOf cfg) w

/-- The value block `wv` of the fused weight. -/
def wvBlock (cfg : ShardCfg) (w : Mat) : Mat :=
  listSlice (cfg.hiddenSize + totalKvSizeOf cfg) (cfg.hiddenSize + 2 * totalKvSizeOf cfg) w

/-- `block[head_size * head_start : head_size * head_end]` with
`head_start = rank * num_heads`, `head_end = (rank + 1) * num_heads`,
`num_heads = total_num_heads // world_size` (lines 538-540, 547). -/
def headRange (cfg : ShardCfg) (rank : ℕ) (block : Mat) : Mat :=
  listSlice ((cfg.hiddenSize / cfg.totalNumHeads) * (rank * (cfg.totalNumHeads / cfg.worldSize)))
    ((cfg.hiddenSize / cfg.totalNumHeads) * ((rank + 1) * (cfg.totalNumHeads / cfg.worldSize)))
    block

/-- Lines 532-557: split the fused weight into query/key/value blocks of row
sizes `[hidden_size, total_kv_size, total_kv_size]`, slice the query block to
the local partition's contiguous head range, and slice (multi-head) or
replicate (multi-query) the key/value blocks. -/
def shardCAttnWeight (cfg : ShardCfg) (rank : ℕ) (w : Mat) : ShardedQKV :=
  if cfg.multiQuery then
    ShardedQKV.separate (headRange cfg rank (wqBlock cfg w)) (wkBlock cfg w ++ wvBlock cfg w)
  else
    ShardedQKV.fused
      (headRange cfg rank (wqBlock cfg w) ++ headRange cfg rank (wkBlock cfg w) ++
       headRange cfg rank (wvBlock cfg w))

/-- The query part of a partition's shard. -/
def qShard (cfg : ShardCfg) (rank : ℕ) (w : Mat) : Mat :=
  match shardCAttnWeight cfg rank w with
  | ShardedQKV.separate q _ => q
  | ShardedQKV.fused f =>
      f.take (cfg.hiddenSize / cfg.totalNumHeads * (cfg.totalNumHeads / cfg.worldSize))

/-- The key/value part of a multi-query partition's shard (`[]` if fused). -/
def kvShard (cfg : ShardCfg) (rank : ℕ) (w : Mat) : Mat :=
  match shardCAttnWeight cfg rank w with
  | ShardedQKV.separate _ kv => kv
  | ShardedQKV.fused _ => []

/-! ## Vocabulary padding (GPTBigCodeModel.__init__, line 442) -/

/-- `((config.vocab_size + 63) // 64) * 64`. -/
def paddedVocabSize (vocabSize : ℕ) : ℕ := ((vocabSize + 63) / 64) * 64

/-! ## Attention construction checks (GPTBigCodeAttention.__init__, lines 49-59) -/

inductive InitError
  | assertionError
  | zeroDivisionError
deriving DecidableEq

structure AttnInitCfg where
  numHeads : ℕ
  headDim : ℕ
  numKvHeads : ℕ
  kvDim : ℕ
deriving DecidableEq

/-- The checked part of `GPTBigCodeAttention.__init__`: the
`assert total_num_heads % world_size == 0` on line 55 (an `AssertionError`),
and the `self.scale = self.head_dim ** -0.5` on line 59, which raises
`ZeroDivisionError` exactly when the integer division
`hidden_size // total_num_heads` is zero.  No other check is performed;
in particular divisibility of the hidden size by the head count is never
asserted. -/
def attnInitChecks (hiddenSize totalNumHeads worldSize : ℕ) (multiQuery : Bool) :
    Except InitError AttnInitCfg :=
  if totalNumHeads % worldSize ≠ 0 then Except.error InitError.assertionError
  else if hiddenSize / totalNumHeads = 0 then Except.error InitError.zeroDivisionError
  else Except.ok
    { numHeads := totalNumHeads / worldSize
      headDim := hiddenSize / totalNumHeads
      numKvHeads := if multiQuery then 1 else totalNumHeads / worldSize
      kvDim := if multiQuery then hiddenSize / totalNumHeads
               else (totalNumHeads / worldSize) * (hiddenSize / totalNumHeads) }

/-! ## Module state, adapter parameters, forward passes -/

structure InputMetadata where
  numPrompts : ℕ
  promptLens : List ℕ
  numValidTokens : ℕ
  indices : List ℕ
deriving DecidableEq

inductive FwdError
  | shapeMismatch
  | notImplemented
  | gatherOutOfRange
  | missingParams
  | indexError
deriving DecidableEq

/-- A hidden-state tensor: its number of tensor dimensions
(`len(hidden_states.size())`) and its rows when viewed as 2-D.  Every call
from the surrounding model passes a 2-D `[tokens, hidden]` tensor. -/
structure HTensor where
  ndim : ℕ
  rows : Mat
deriving DecidableEq

/-- The adapter attributes `self.A .. self.F` of the attention module: absent
before any `set_mode` (reading them then is an AttributeError, embedded as
`FwdError.missingParams`), six 2-D matrices in bmm mode, six
`[rank, 10, d]` tensors in flora mode. -/
inductive AttnAdapterParams
  | noParams
  | bmmParams (A B C D E F : Mat)
  | floraParams (A B C D E F : Tensor3)
deriving DecidableEq

/-- The adapter attributes `self.A .. self.D` of the MLP module. -/
inductive MlpAdapterParams
  | noParams
  | bmmParams (A B C D : Mat)
  | floraParams (A B C D : Tensor3)
deriving DecidableEq

structure GPTBigCodeAttention where
  multiQuery : Bool
  hiddenSize : ℕ
  kvDim : ℕ
  worldSize : ℕ
  mode : String
  rank : ℕ
  params : AttnAdapterParams

/-- The attention module's external collaborators: the linear layers apply
row-wise to the last dimension; `attn` is the paged-attention kernel with
the caches and metadata already fixed. -/
structure AttnEnv where
  cAttnQ : Vec → Vec
  cAttnKv : Vec → Vec
  cAttn : Vec → Vec
  cProj : Vec → Vec
  attn : Mat → Mat → Mat → Mat

structure GPTBigMLP where
  hiddenSize : ℕ
  intermediateSize : ℕ
  mode : String
  rank : ℕ
  params : MlpAdapterParams

structure MlpEnv where
  cFc : Vec → Vec
  cProj : Vec → Vec
  act : Vec → Vec

/-- `torch.randn([d0, d1])` with an abstract entry sampler. -/
def randnMat (g : ℕ → ℕ → ℕ → ℚ) (d0 d1 : ℕ) : Mat :=
  (List.range d0).map (fun i => (List.range d1).map (fun j => g i j 0))

/-- `torch.randn([d0, d1, d2])` with an abstract entry sampler. -/
def randnT3 (g : ℕ → ℕ → ℕ → ℚ) (d0 d1 d2 : ℕ) : Tensor3 :=
  (List.range d0).map (fun i => (List.range d1).map (fun j => (List.range d2).map (fun k => g i j k)))

/-- Lines 214-242: record the mode and rank; in bmm mode create six fresh
2-D parameter matrices, in flora mode six fresh `[rank, 10, d]` tensors
(the cluster axis has the literal size 10); any other mode creates nothing.
`randn` abstracts the `torch.randn` draws (one sampler per created tensor). -/
def GPTBigCodeAttention.set_mode (self : GPTBigCodeAttention) (mode : String) (rank : ℕ)
    (randn : ℕ → ℕ → ℕ → ℕ → ℚ) : GPTBigCodeAttention :=
  if mode = "bmm" then
    { self with mode := mode, rank := rank, params := (AttnAdapterParams.bmmParams
        (randnMat (randn 0) self.hiddenSize rank)
        (randnMat (randn 1) rank self.hiddenSize)
        (randnMat (randn 2) self.hiddenSize rank)
        (randnMat (randn 3) rank (2 * self.kvDim))
        (randnMat (randn 4) self.hiddenSize rank)
        (randnMat (randn 5) rank self.hiddenSize)) }
  else if mode = "flora" then
    { self with mode := mode, rank := rank, params := (AttnAdapterParams.floraParams
        (randnT3 (randn 0) rank 10 self.hiddenSize)
        (randnT3 (randn 1) rank 10 self.hiddenSize)
        (randnT3 (randn 2) rank 10 self.hiddenSize)
        (randnT3 (randn 3) rank 10 (2 * self.kvDim))
        (randnT3 (randn 4) rank 10 self.hiddenSize)
        (randnT3 (randn 5) rank 10 self.hiddenSize)) }
  else { self with mode := mode, rank := rank }

/-- Lines 244-245: `unset_mode` sets `self.mode = ""` and touches nothing
else (the adapter attributes remain). -/
def GPTBigCodeAttention.unset_mode (self : GPTBigCodeAttention) : GPTBigCodeAttention :=
  { self with mode := "" }

/-- Lines 363-383: the MLP analogue of `set_mode`. -/
def GPTBigMLP.set_mode (self : GPTBigMLP) (mode : String) (rank : ℕ)
    (randn : ℕ → ℕ → ℕ → ℕ → ℚ) : GPTBigMLP :=
  if mode = "bmm" then
    { self with mode := mode, rank := rank, params := (MlpAdapterParams.bmmParams
        (randnMat (randn 0) self.hiddenSize rank)
        (randnMat (randn 1) rank self.intermediateSize)
        (randnMat (randn 2) self.intermediateSize rank)
        (randnMat (randn 3) rank self.hiddenSize)) }
  else if mode = "flora" then
    { self with mode := mode, rank := rank, params := (MlpAdapterParams.floraParams
        (randnT3 (randn 0) rank 10 self.hiddenSize)
        (randnT3 (randn 1) rank 10 self.intermediateSize)
        (randnT3 (randn 2) rank 10 self.intermediateSize)
        (randnT3 (randn 3) rank 10 self.hiddenSize)) }
  else { self with mode := mode, rank := rank }

/-- Lines 385-386: the MLP `unset_mode`. -/
def GPTBigMLP.unset_mode (self : GPTBigMLP) : GPTBigMLP :=
  { self with mode := "" }

/-- Sequence a list of options: `none` as soon as one entry is `none`. -/
def seqOpt : List (Option α) → Option (List α)
  | [] => some []
  | o :: os => o.bind (fun a => (seqOpt os).map (fun l => a :: l))

/-- `torch.gather(A, 1, indices.unsqueeze(0).unsqueeze(-1).expand(rank, -1, d))`
on a `[rank, clusters, d]` tensor: pick, in every rank slice, the cluster row
of each token's index.  `none` models the out-of-range index error. -/
def gatherIdx (A : Tensor3) (idx : List ℕ) : Option Tensor3 :=
  seqOpt (A.map (fun cl => seqOpt (idx.map (fun i => cl[i]?))))

def ofOpt (o : Option α) (e : FwdError) : Except FwdError α :=
  match o with
  | some a => Except.ok a
  | none => Except.error e

/-- The attention forward result: the value returned into the residual
stream, plus the adapter contribution tensors the code computes and then
discards (`adapters_out` of the two bmm blocks; the final `plora1`,
`plora2` of flora mode). -/
structure AttnOut where
  out : Mat
  adaptersOutPre : Tensor3 := []
  adaptersOutPost : Tensor3 := []
  plora1 : Tensor3 := []
  plora2 : Mat := []
deriving DecidableEq

structure MlpOut where
  out : Mat
  adaptersOutPre : Tensor3 := []
  adaptersOutPost : Tensor3 := []
  plora1 : Mat := []
  plora2 : Mat := []
deriving DecidableEq

/-- Lines 102-140: the bmm-mode pre-attention block.  Repacks the flat rows
into a zero-padded `[batch, max_len, hidden]` tensor and runs the four
chained batched products; carries forward what the post-attention bmm block
(lines 197-209) reuses: the batch shape, the scatter indices and the `E`,
`F` matrices, along with the computed-and-discarded `adapters_out`. -/
def attnStage1 (self : GPTBigCodeAttention) (rows : Mat) (input_metadata : InputMetadata) :
    Except FwdError (Option (ℕ × ℕ × List ℤ × Tensor3 × Mat × Mat)) :=
  if self.mode = "bmm" then
    match self.params with
    | AttnAdapterParams.bmmParams A B C D E F =>
      match bmmBatchShape input_metadata.numPrompts input_metadata.promptLens rows.length
          input_metadata.numValidTokens with
      | none => Except.error FwdError.indexError
      | some (batchSize, maxSeqLength, seqLens) =>
        let hiddenSize := numCols rows
        let idx := maskedIndexList seqLens maxSeqLength
        let inputs := scatterRows (batchSize * maxSeqLength) hiddenSize idx rows
        let inputs3 := reshape3 batchSize maxSeqLength inputs
        let adaptersHidden := bmm3 inputs3 A
        let adaptersOut := bmm3 adaptersHidden B
        let adaptersHidden2 := bmm3 adaptersOut C
        let adaptersOut2 := bmm3 adaptersHidden2 D
        Except.ok (some (batchSize, maxSeqLength, idx, adaptersOut2, E, F))
    | _ => Except.error FwdError.missingParams
  else Except.ok none

/-- Lines 142-181: compute `q`, `k`, `v`.  In flora mode (multi-query only)
the input is shape-checked, the cluster rows of `A`..`D` are gathered, the
`plora` contributions are computed (and dropped), and the projections are
applied to the rank-replicated input with only replica 0 kept. -/
def attnStage2 (self : GPTBigCodeAttention) (env : AttnEnv) (hidden_states : HTensor)
    (input_metadata : InputMetadata) : Except FwdError (Mat × Mat × Mat) :=
  let rows := hidden_states.rows
  if self.multiQuery then
    if self.mode = "flora" then
      if hidden_states.ndim ≠ 2 then Except.error FwdError.shapeMismatch
      else
        match self.params with
        | AttnAdapterParams.floraParams A B C D E F => do
          let indices := input_metadata.indices
          let Ag ← ofOpt (gatherIdx A indices) FwdError.gatherOutOfRange
          let Cg ← ofOpt (gatherIdx C indices) FwdError.gatherOutOfRange
          let plora1 := t3HadamardMat Ag rows
          let plora2 := t3HadamardMat Cg rows
          let hs3 := List.replicate self.rank rows
          let q := (hs3.map (fun m : Mat => m.map env.cAttnQ)).headD []
          let kv := (hs3.map (fun m : Mat => m.map env.cAttnKv)).headD []
          let k := kv.map (fun r => r.take self.kvDim)
          let v := kv.map (fun r => (r.drop self.kvDim).take self.kvDim)
          let Bg ← ofOpt (gatherIdx B indices) FwdError.gatherOutOfRange
          let Dg ← ofOpt (gatherIdx D indices) FwdError.gatherOutOfRange
          let plora1' := meanDim0 (t3HadamardMat Bg q)
          let plora2' := meanDim0 (t3HadamardMat Dg kv)
          Except.ok (q, k, v)
        | _ => Except.error FwdError.missingParams
    else
      let q := rows.map env.cAttnQ
      let kv := rows.map env.cAttnKv
      let k := kv.map (fun r => r.take self.kvDim)
      let v := kv.map (fun r => (r.drop self.kvDim).take self.kvDim)
      Except.ok (q, k, v)
  else
    if self.mode = "flora" then Except.error FwdError.notImplemented
    else
      let qkv := rows.map env.cAttn
      let qSize := self.hiddenSize / self.worldSize
      let q := qkv.map (fun r => r.take qSize)
      let k := qkv.map (fun r => (r.drop qSize).take self.kvDim)
      let v := qkv.map (fun r => ((r.drop qSize).drop self.kvDim).take self.kvDim)
      Except.ok (q, k, v)

/-- Lines 186-212: the post-attention output projection, with the flora
gathers over `E`, `F` (projection applied to the rank-replicated output,
replica 0 kept) or the bmm post-block scatter and products. -/
def attnStage3 (self : GPTBigCodeAttention) (env : AttnEnv)
    (bmmPre : Option (ℕ × ℕ × List ℤ × Tensor3 × Mat × Mat))
    (input_metadata : InputMetadata) (attnOutput : Mat) : Except FwdError AttnOut :=
  if self.mode = "flora" then
    match self.params with
    | AttnAdapterParams.floraParams A B C D E F => do
      let indices := input_metadata.indices
      let Eg ← ofOpt (gatherIdx E indices) FwdError.gatherOutOfRange
      let Fg ← ofOpt (gatherIdx F indices) FwdError.gatherOutOfRange
      let plora1 := t3HadamardMat Eg attnOutput
      let ao3 := (List.replicate self.rank attnOutput).map (fun m : Mat => m.map env.cProj)
      let plora2 := meanDim0 (t3Hadamard Fg ao3)
      Except.ok ({ out := ao3.headD [], plora1 := plora1, plora2 := plora2 } : AttnOut)
    | _ => Except.error FwdError.missingParams
  else
    match bmmPre with
    | some (batchSize, maxSeqLength, idx, ghostPre, E, F) =>
      let inputs := scatterRows (batchSize * maxSeqLength) (numCols attnOutput) idx attnOutput
      let inputs3 := reshape3 batchSize maxSeqLength inputs
      let adaptersHidden := bmm3 inputs3 E
      let ghostPost := bmm3 adaptersHidden F
      Except.ok ({ out := attnOutput.map env.cProj, adaptersOutPre := ghostPre,
                   adaptersOutPost := ghostPost } : AttnOut)
    | none => Except.ok ({ out := attnOutput.map env.cProj } : AttnOut)

/-- `GPTBigCodeAttention.forward` (lines 94-212), staged exactly as the
source: the bmm pre-block, the QKV computation, the paged-attention kernel
call, and the output projection with its adapter blocks. -/
def GPTBigCodeAttention.forward (self : GPTBigCodeAttention) (env : AttnEnv)
    (hidden_states : HTensor) (input_metadata : InputMetadata) : Except FwdError AttnOut := do
  let bmmPre ← attnStage1 self hidden_states.rows input_metadata
  let qkv ← attnStage2 self env hidden_states input_metadata
  let attnOutput := env.attn qkv.1 qkv.2.1 qkv.2.2
  attnStage3 self env bmmPre input_metadata attnOutput

/-- Lines 272-308: the bmm-mode pre-MLP block (repack and two batched
products); carries the batch shape, scatter indices and `C`, `D` for the
inner post-activation bmm block (lines 346-358). -/
def mlpStage1 (self : GPTBigMLP) (rows : Mat) (input_metadata : InputMetadata) :
    Except FwdError (Option (ℕ × ℕ × List ℤ × Tensor3 × Mat × Mat)) :=
  if self.mode = "bmm" then
    match self.params with
    | MlpAdapterParams.bmmParams A B C D =>
      match bmmBatchShape input_metadata.numPrompts input_metadata.promptLens rows.length
          input_metadata.numValidTokens with
      | none => Except.error FwdError.indexError
      | some (batchSize, maxSeqLength, seqLens) =>
        let hiddenSize := numCols rows
        let idx := maskedIndexList seqLens maxSeqLength
        let inputs := scatterRows (batchSize * maxSeqLength) hiddenSize idx rows
        let inputs3 := reshape3 batchSize maxSeqLength inputs
        let adaptersHidden := bmm3 inputs3 A
        let adaptersOut := bmm3 adaptersHidden B
        Except.ok (some (batchSize, maxSeqLength, idx, adaptersOut, C, D))
    | _ => Except.error FwdError.missingParams
  else Except.ok none

/-- Lines 310-361: the MLP body.  Flora mode shape-checks the input, gathers
the cluster rows of `A`..`D`, computes the `plora` contributions (replica 0
of the rank-replicated projections continues the forward path); otherwise
the plain `c_fc`/activation/`c_proj` pipeline runs, with the bmm
post-activation block in between in bmm mode. -/
def mlpStage2 (self : GPTBigMLP) (env : MlpEnv) (hidden_states : HTensor)
    (input_metadata : InputMetadata)
    (bmmPre : Option (ℕ × ℕ × List ℤ × Tensor3 × Mat × Mat)) : Except FwdError MlpOut :=
  let rows := hidden_states.rows
  if self.mode = "flora" then
    if hidden_states.ndim ≠ 2 then Except.error FwdError.shapeMismatch
    else
      match self.params with
      | MlpAdapterParams.floraParams A B C D => do
        let indices := input_metadata.indices
        let Ag ← ofOpt (gatherIdx A indices) FwdError.gatherOutOfRange
        let plora1a := t3HadamardMat Ag rows
        let hs1 := ((List.replicate self.rank rows).map (fun m : Mat => m.map env.cFc)).headD []
        let Bg ← ofOpt (gatherIdx B indices) FwdError.gatherOutOfRange
        let plora1 := meanDim0 (t3HadamardMat Bg hs1)
        let hs2 := hs1.map env.act
        let Cg ← ofOpt (gatherIdx C indices) FwdError.gatherOutOfRange
        let plora2a := t3HadamardMat Cg hs2
        let hs3 := ((List.replicate self.rank hs2).map (fun m : Mat => m.map env.cProj)).headD []
        let Dg ← ofOpt (gatherIdx D indices) FwdError.gatherOutOfRange
        let plora2 := meanDim0 (t3HadamardMat Dg hs3)
        Except.ok ({ out := hs3, plora1 := plora1, plora2 := plora2 } : MlpOut)
      | _ => Except.error FwdError.missingParams
  else
    let hs1 := rows.map env.cFc
    let hs2 := hs1.map env.act
    match bmmPre with
    | some (batchSize, maxSeqLength, idx, ghostPre, C, D) =>
      let inputs := scatterRows (batchSize * maxSeqLength) (numCols hs2) idx hs2
      let inputs3 := reshape3 batchSize maxSeqLength inputs
      let adaptersHidden := bmm3 inputs3 C
      let ghostPost := bmm3 adaptersHidden D
      Except.ok ({ out := hs2.map env.cProj, adaptersOutPre := ghostPre,
                   adaptersOutPost := ghostPost } : MlpOut)
    | none => Except.ok ({ out := hs2.map env.cProj } : MlpOut)

/-- `GPTBigMLP.forward` (lines 271-361). -/
def GPTBigMLP.forward (self : GPTBigMLP) (env : MlpEnv) (hidden_states : HTensor)
    (input_metadata : InputMetadata) : Except FwdError MlpOut := do
  let bmmPre ← mlpStage1 self hidden_states.rows input_metadata
  mlpStage2 self env hidden_states input_metadata bmmPre

/-- `GPTBigCodeBlock.forward` (lines 402-425): pre-norm, attention, residual
add, pre-norm, MLP, residual add.  The layer norms are abstract row-wise
collaborators. -/
def GPTBigCodeBlock.forward (attn : GPTBigCodeAttention) (mlp : GPTBigMLP)
    (aenv : AttnEnv) (menv : MlpEnv) (ln1 ln2 : Vec → Vec)
    (rows : Mat) (input_metadata : InputMetadata) : Except FwdError Mat := do
  let residual := rows
  let h1 := rows.map ln1
  let a ← attn.forward aenv { ndim := 2, rows := h1 } input_metadata
  let hidden2 := addMat a.out residual
  let residual2 := hidden2
  let h2 := hidden2.map ln2
  let f ← mlp.forward menv { ndim := 2, rows := h2 } input_metadata
  Except.ok (addMat residual2 f.out)

/-- The `(q, k, v)` triple the non-flora attention paths compute (lines
168-181). -/
def attnQKVDisabled (env : AttnEnv) (self : GPTBigCodeAttention) (rows : Mat) :
    Mat × Mat × Mat :=
  if self.multiQuery then
    let q := rows.map env.cAttnQ
    let kv := rows.map env.cAttnKv
    let k := kv.map (fun r => r.take self.kvDim)
    let v := kv.map (fun r => (r.drop self.kvDim).take self.kvDim)
    (q, k, v)
  else
    let qkv := rows.map env.cAttn
    let qSize := self.hiddenSize / self.worldSize
    let q := qkv.map (fun r => r.take qSize)
    let k := qkv.map (fun r => (r.drop qSize).take self.kvDim)
    let v := qkv.map (fun r => ((r.drop qSize).drop self.kvDim).take self.kvDim)
    (q, k, v)

/-- The value the disabled (mode `""`) attention forward returns into the
residual stream. -/
def attnNormalOut (env : AttnEnv) (self : GPTBigCodeAttention) (rows : Mat) : Mat :=
  (env.attn (attnQKVDisabled env self rows).1 (attnQKVDisabled env self rows).2.1
    (attnQKVDisabled env self rows).2.2).map env.cProj

/-- The value the disabled MLP forward returns into the residual stream. -/
def mlpNormalOut (env : MlpEnv) (rows : Mat) : Mat :=
  ((rows.map env.cFc).map env.act).map env.cProj

/-- The contract of `torch.randint(lo, hi, [n])` (an external library
collaborator): `n` integers drawn in `[lo, hi)`, here with an abstract
entropy source `g`. -/
def torchRandint (lo hi n : ℕ) (g : ℕ → ℕ) : List ℕ :=
  (List.range n).map (fun i => lo + g i % (hi - lo))

/-- Lines 606-608 of `GPTBigCodeForCausalLMPeft.forward`: in flora mode,
draw one cluster index per token with `torch.randint(0, 10, ...)` and write
them into `input_metadata.indices`. -/
def GPTBigCodeForCausalLMPeft.prepareIndices (mode : String) (numTokens : ℕ) (g : ℕ → ℕ)
    (input_metadata : InputMetadata) : InputMetadata :=
  if mode = "flora" then { input_metadata with indices := torchRandint 0 10 numTokens g }
  else input_metadata

/-! ## Concrete instances used by witnesses and counterexamples -/

def wAttnEnv : AttnEnv :=
  { cAttnQ := fun v => v, cAttnKv := fun v => v, cAttn := fun v => v,
    cProj := fun v => v, attn := fun q _ _ => q }

def wMlpEnv : MlpEnv := { cFc := fun v => v, cProj := fun v => v, act := fun v => v }

def wAttn0 : GPTBigCodeAttention :=
  { multiQuery := true, hiddenSize := 2, kvDim := 1, worldSize := 1,
    mode := "", rank := 0, params := AttnAdapterParams.noParams }

def wMlp0 : GPTBigMLP :=
  { hiddenSize := 2, intermediateSize := 2, mode := "", rank := 0,
    params := MlpAdapterParams.noParams }

def wMeta : InputMetadata :=
  { numPrompts := 1, promptLens := [2], numValidTokens := 2, indices := [0, 1] }

def wRnd : ℕ → ℕ → ℕ → ℕ → ℚ := fun _ _ _ _ => 1

def wRows : Mat := [[1, 2], [3, 4]]

def wFlat : Mat := [[10], [11], [12], [13], [14]]

def wShardCfg : ShardCfg :=
  { totalNumHeads := 2, hiddenSize := 4, multiQuery := true, worldSize := 2 }

def wShardW : Mat := [[0], [1], [2], [3], [4], [5], [6], [7]]

/-! ## Helper lemmas: the repacking index computation -/

theorem cumsumAux_false (acc : ℕ) (m : List Bool) :
    cumsumAux acc (false :: m) = acc :: cumsumAux acc m := by
  simp [cumsumAux]

theorem cumsumAux_true (acc : ℕ) (m : List Bool) :
    cumsumAux acc (true :: m) = (acc + 1) :: cumsumAux (acc + 1) m := by
  simp [cumsumAux]

theorem cumsumAux_add (a : ℕ) : ∀ (l : List Bool) (acc : ℕ),
    cumsumAux (a + acc) l = (cumsumAux acc l).map (fun c => a + c) := by
  intro l
  induction l with
  | nil => intro acc; rfl
  | cons b bs ih =>
    intro acc
    simp only [cumsumAux, List.map_cons, Nat.add_assoc, ih]

theorem cumsumAux_eq_map (acc : ℕ) (l : List Bool) :
    cumsumAux acc l = (cumsumAux 0 l).map (fun c => acc + c) := by
  simpa using cumsumAux_add acc l 0

theorem maskRow_succ_pos (T l : ℕ) : maskRow (T + 1) (l + 1) = true :: maskRow T l := by
  simp [maskRow, List.range_succ_eq_map, List.map_map, Function.comp_def, Nat.succ_lt_succ_iff]

theorem maskRow_succ_zero (T : ℕ) : maskRow (T + 1) 0 = false :: maskRow T 0 := by
  simp [maskRow, List.range_succ_eq_map, List.map_map, Function.comp_def]

theorem maskedSelect_cons (b : Bool) (ms : List Bool) (v : ℤ) (vs : List ℤ) :
    maskedSelect (b :: ms) (v :: vs) = (if b then [v] else []) ++ maskedSelect ms vs := by
  cases b <;> simp [maskedSelect]

theorem adjustedRow_eq (T len : ℕ) (off : ℤ) :
    adjustedRow T len off = (cumsumAux 0 (maskRow T len)).map (fun c : ℕ => (c : ℤ) - 1 + off) := by
  simp [adjustedRow, rowIndicesRow, List.map_map, Function.comp_def]

theorem maskedRow_eq : ∀ (T len : ℕ) (off : ℤ), len ≤ T →
    maskedRow T len off = (List.range len).map (fun t : ℕ => (t : ℤ) + off) := by
  intro T
  induction T with
  | zero =>
    intro len off h
    have h0 : len = 0 := Nat.le_zero.mp h
    subst h0
    rfl
  | succ T ih =>
    intro len off h
    match len with
    | 0 =>
      have step : maskedRow (T + 1) 0 off = maskedRow T 0 off := by
        rw [maskedRow, adjustedRow_eq, maskRow_succ_zero, cumsumAux_false, List.map_cons,
          maskedSelect_cons, ← adjustedRow_eq, ← maskedRow]
        simp
      rw [step, ih 0 off (Nat.zero_le T)]
    | l + 1 =>
      have hl : l ≤ T := Nat.succ_le_succ_iff.mp h
      have step : maskedRow (T + 1) (l + 1) off = off :: maskedRow T l (off + 1) := by
        rw [maskedRow, adjustedRow_eq, maskRow_succ_pos, cumsumAux_true, Nat.zero_add,
          cumsumAux_eq_map 1 (maskRow T l), List.map_cons, maskedSelect_cons]
        have hfun : ((cumsumAux 0 (maskRow T l)).map (fun c => 1 + c)).map
              (fun c : ℕ => (c : ℤ) - 1 + off)
            = (cumsumAux 0 (maskRow T l)).map (fun c : ℕ => (c : ℤ) - 1 + (off + 1)) := by
          rw [List.map_map]
          apply List.map_eq_map_iff.mpr
          intro x _
          simp only [Function.comp_apply]
          push_cast
          ring
        rw [hfun, ← adjustedRow_eq, ← maskedRow]
        norm_num
      rw [step, ih l (off + 1) hl, List.range_succ_eq_map, List.map_cons, List.map_map]
      congr 1
      · push_cast
        ring
      · apply List.map_eq_map_iff.mpr
        intro x _
        simp only [Function.comp_apply]
        push_cast
        ring

theorem le_maxList (l : List ℕ) : ∀ x ∈ l, x ≤ maxList l := by
  induction l with
  | nil => simp
  | cons a t ih =>
    intro x hx
    rcases List.mem_cons.mp hx with rfl | hx
    · simp [maxList]
    · exact le_trans (ih x hx) (by simp [maxList])

theorem sum_le_mul_maxList (l : List ℕ) : l.sum ≤ l.length * maxList l := by
  have h := List.sum_le_card_nsmul l (maxList l) (le_maxList l)
  simpa using h

theorem maskedIndexList_shift : ∀ (lengths : List ℕ) (T : ℕ) (off : ℤ),
    (∀ x ∈ lengths, x ≤ T) →
    ((List.zip lengths (startOffsets lengths)).map
        (fun p : ℕ × ℕ => maskedRow T p.1 ((p.2 : ℤ) + off))).flatten
      = (List.range lengths.sum).map (fun t : ℕ => (t : ℤ) + off) := by
  intro lengths
  induction lengths with
  | nil => intro T off h; rfl
  | cons x xs ih =>
    intro T off h
    have hx : x ≤ T := h x (List.mem_cons_self x xs)
    have hxs : ∀ y ∈ xs, y ≤ T := fun y hy => h y (List.mem_cons_of_mem x hy)
    show ((List.zip (x :: xs) (0 :: (startOffsets xs).map (fun o => x + o))).map
        (fun p : ℕ × ℕ => maskedRow T p.1 ((p.2 : ℤ) + off))).flatten = _
    rw [List.zip_cons_cons, List.map_cons, List.flatten_cons, List.zip_map_right, List.map_map]
    have htail : (List.zip xs (startOffsets xs)).map
          ((fun p : ℕ × ℕ => maskedRow T p.1 ((p.2 : ℤ) + off)) ∘ Prod.map id (fun o => x + o))
        = (List.zip xs (startOffsets xs)).map
          (fun p : ℕ × ℕ => maskedRow T p.1 ((p.2 : ℤ) + (off + (x : ℤ)))) := by
      apply List.map_eq_map_iff.mpr
      intro p hp
      rcases p with ⟨a, b⟩
      show maskedRow T a (((x + b : ℕ) : ℤ) + off) = maskedRow T a ((b : ℤ) + (off + (x : ℤ)))
      congr 1
      push_cast
      ring
    rw [htail, ih T (off + (x : ℤ)) hxs]
    have hhead : maskedRow T x (((0 : ℕ) : ℤ) + off)
        = (List.range x).map (fun t : ℕ => (t : ℤ) + off) := by
      rw [show ((0 : ℕ) : ℤ) + off = off by push_cast; ring]
      exact maskedRow_eq T x off hx
    rw [hhead, List.sum_cons, List.range_add, List.map_append, List.map_map]
    congr 1
    apply List.map_eq_map_iff.mpr
    intro t ht
    simp only [Function.comp_apply]
    push_cast
    ring

theorem maskedIndexList_eq_range (lengths : List ℕ) :
    maskedIndexList lengths (maxList lengths)
      = (List.range lengths.sum).map (fun t : ℕ => (t : ℤ)) := by
  have h := maskedIndexList_shift lengths (maxList lengths) 0 (le_maxList lengths)
  rw [maskedIndexList]
  have hmm : (List.zip lengths (startOffsets lengths)).map
        (fun p : ℕ × ℕ => maskedRow (maxList lengths) p.1 ((p.2 : ℤ)))
      = (List.zip lengths (startOffsets lengths)).map
        (fun p : ℕ × ℕ => maskedRow (maxList lengths) p.1 ((p.2 : ℤ) + 0)) := by
    apply List.map_eq_map_iff.mpr
    intro p hp
    norm_num
  rw [hmm, h]
  apply List.map_eq_map_iff.mpr
  intro t ht
  norm_num

theorem set_append_length (l₁ l₂ : Mat) (v : Vec) :
    (l₁ ++ l₂).set l₁.length v = l₁ ++ l₂.set 0 v := by
  induction l₁ with
  | nil => simp
  | cons a t ih => simp [List.set, ih]

theorem zeroMat_succ (k h : ℕ) : zeroMat (k + 1) h = List.replicate h 0 :: zeroMat k h := by
  simp [zeroMat, List.replicate_succ]

theorem scatterRows_range (n h : ℕ) : ∀ (rows : Mat), rows.length ≤ n →
    scatterRows n h ((List.range rows.length).map (fun t : ℕ => (t : ℤ))) rows
      = rows ++ zeroMat (n - rows.length) h := by
  intro rows
  induction rows using List.reverseRecOn with
  | nil => intro _; simp [scatterRows, zeroMat]
  | append_singleton rs r ih =>
    intro hle
    have hlen2 : (rs ++ [r]).length = rs.length + 1 := by simp
    have hm : rs.length + 1 ≤ n := by simpa [hlen2] using hle
    rw [scatterRows, hlen2, List.range_succ, List.map_append,
      List.zip_append (by simp), List.foldl_append]
    show ((scatterRows n h ((List.range rs.length).map (fun t : ℕ => (t : ℤ))) rs).set
        ((rs.length : ℤ)).toNat r) = _
    rw [ih (le_trans (Nat.le_succ _) hm), Int.toNat_natCast, set_append_length,
      show n - rs.length = (n - (rs.length + 1)) + 1 by omega, zeroMat_succ]
    simp

theorem map_getD_range (l : Mat) : (List.range l.length).map (fun i => l.getD i []) = l := by
  apply List.ext_getElem (by simp)
  intro i h1 h2
  simp only [List.getElem_map, List.getElem_range]
  rw [List.getD_eq_getElem?_getD, List.getElem?_eq_getElem h2]
  rfl

theorem gatherRows_scatter (rows ext : Mat) :
    gatherRows (rows ++ ext) ((List.range rows.length).map (fun t : ℕ => (t : ℤ))) = rows := by
  rw [gatherRows, List.map_map]
  rw [List.map_eq_map_iff.mpr (fun i hi => by
    simp only [Function.comp_apply, Int.toNat_natCast]
    exact List.getD_append _ _ _ _ (List.mem_range.mp hi))]
  exact map_getD_range rows

/-! ## Helper lemmas: mask counting, chunking, gathers -/

theorem countP_range_lt (len : ℕ) : ∀ T : ℕ,
    (List.range T).countP (fun t => decide (t < len)) = min T len := by
  intro T
  induction T with
  | zero => simp
  | succ T ih =>
    rw [List.range_succ, List.countP_append, ih]
    have hone : (List.countP (fun t => decide (t < len)) [T]) = if T < len then 1 else 0 := by
      by_cases h : T < len <;> simp [List.countP_cons, h]
    rw [hone]
    by_cases h : T < len <;> simp [h] <;> omega

theorem count_true_maskRow (T len : ℕ) : (maskRow T len).count true = min T len := by
  have h1 : (maskRow T len).count true
      = (List.range T).countP ((fun b : Bool => b == true) ∘ (fun t => decide (t < len))) := by
    rw [maskRow, List.count, List.countP_map]
  rw [h1]
  have h2 : ((fun b : Bool => b == true) ∘ (fun t : ℕ => decide (t < len)))
      = (fun t : ℕ => decide (t < len)) := by
    funext t
    simp
  rw [h2, countP_range_lt]

theorem maskTrueCount_eq_sum (lengths : List ℕ) (T : ℕ) (h : ∀ x ∈ lengths, x ≤ T) :
    maskTrueCount lengths T = lengths.sum := by
  rw [maskTrueCount, sequenceMask, List.map_map]
  have hmap : lengths.map ((fun row : List Bool => row.count true) ∘ maskRow T)
      = lengths.map (fun len => len) :=
    List.map_eq_map_iff.mpr (fun len hlen => by
      simp only [Function.comp_apply]
      rw [count_true_maskRow]
      exact min_eq_right (h len hlen))
  rw [hmap]
  simp

theorem maskTrueCount_le (lengths : List ℕ) (T : ℕ) :
    maskTrueCount lengths T ≤ lengths.length * T := by
  rw [maskTrueCount, sequenceMask, List.map_map]
  have hb : ∀ x ∈ lengths.map ((fun row : List Bool => row.count true) ∘ maskRow T), x ≤ T := by
    intro x hx
    obtain ⟨len, hlen, rfl⟩ := List.mem_map.mp hx
    simp only [Function.comp_apply]
    rw [count_true_maskRow]
    exact min_le_left _ _
  have := List.sum_le_card_nsmul _ T hb
  simpa using this

theorem adjustLast_length : ∀ (l : List ℕ) (p : ℕ), (adjustLast l p).length = l.length := by
  intro l
  induction l with
  | nil => intro p; rfl
  | cons x xs ih =>
    intro p
    cases xs with
    | nil => rfl
    | cons y ys => simp only [adjustLast, List.length_cons, ih]

theorem flatten_chunks (c : ℕ) : ∀ (n : ℕ) (l : Mat), l.length = c * n →
    ((List.range n).map (fun r => (l.drop (c * r)).take c)).flatten = l := by
  intro n
  induction n with
  | zero =>
    intro l hl
    have : l = [] := List.length_eq_zero.mp (by simpa using hl)
    subst this
    rfl
  | succ n ih =>
    intro l hl
    rw [List.range_succ_eq_map, List.map_cons, List.flatten_cons, List.map_map]
    have hh : (l.drop (c * 0)).take c = l.take c := by simp
    rw [hh]
    have htail : (List.range n).map ((fun r => (l.drop (c * r)).take c) ∘ Nat.succ)
        = (List.range n).map (fun r => ((l.drop c).drop (c * r)).take c) := by
      apply List.map_eq_map_iff.mpr
      intro r hr
      simp only [Function.comp_apply]
      rw [List.drop_drop]
      have harith : c * Nat.succ r = c + c * r := by rw [Nat.mul_succ]; omega
      rw [harith]
    have hstep : c * (n + 1) = c * n + c := by ring
    rw [htail, ih (l.drop c) (by rw [List.length_drop, hl, hstep]; omega)]
    exact List.take_append_drop c l

theorem bmmBatchShape_isSome (np : ℕ) (pl : List ℕ) (tr nv : ℕ) (h : 0 < np → pl ≠ []) :
    ∃ t, bmmBatchShape np pl tr nv = some t := by
  by_cases hnp : 0 < np
  · cases pl with
    | nil => exact absurd rfl (h hnp)
    | cons a l =>
      refine ⟨(np, maxList (adjustLast (a :: l) (tr - nv)), adjustLast (a :: l) (tr - nv)), ?_⟩
      rw [bmmBatchShape.eq_def, if_pos hnp]
  · refine ⟨(tr, 1, List.replicate tr 1), ?_⟩
    rw [bmmBatchShape.eq_def, if_neg hnp]

theorem seqOpt_isSome {α : Type} : ∀ (l : List (Option α)), (∀ o ∈ l, o.isSome) →
    ∃ v, seqOpt l = some v := by
  intro l
  induction l with
  | nil => intro _; exact ⟨[], rfl⟩
  | cons o os ih =>
    intro h
    obtain ⟨a, ha⟩ := Option.isSome_iff_exists.mp (h o (List.mem_cons_self _ _))
    obtain ⟨v, hv⟩ := ih (fun x hx => h x (List.mem_cons_of_mem _ hx))
    exact ⟨a :: v, by simp [seqOpt, ha, hv]⟩

theorem gatherIdx_isSome (A : Tensor3) (idx : List ℕ)
    (h : ∀ cl ∈ A, ∀ i ∈ idx, i < cl.length) : ∃ g, gatherIdx A idx = some g := by
  rw [gatherIdx]
  apply seqOpt_isSome
  intro o ho
  obtain ⟨cl, hcl, rfl⟩ := List.mem_map.mp ho
  obtain ⟨v, hv⟩ := seqOpt_isSome (idx.map (fun i => cl[i]?)) (fun oo hoo => by
    obtain ⟨i, hi, rfl⟩ := List.mem_map.mp hoo
    simp [List.getElem?_eq_getElem (h cl hcl i hi)])
  simp [hv]

theorem randnT3_mem_length (g : ℕ → ℕ → ℕ → ℚ) (d0 d1 d2 : ℕ) :
    ∀ cl ∈ randnT3 g d0 d1 d2, cl.length = d1 := by
  intro cl hcl
  obtain ⟨i, hi, rfl⟩ := List.mem_map.mp hcl
  simp [randnT3]

theorem headD_map_replicate (r : ℕ) (hr : 1 ≤ r) (x : Mat) (f : Mat → Mat) (d : Mat) :
    ((List.replicate r x).map f).headD d = f x := by
  match r, hr with
  | r + 1, _ => simp [List.replicate_succ]

/-! ## Helper lemmas: QKV sharding -/

theorem headRange_eq (cfg : ShardCfg) (r : ℕ) (block : Mat) :
    headRange cfg r block
      = (block.drop ((cfg.hiddenSize / cfg.totalNumHeads) * (cfg.totalNumHeads / cfg.worldSize) * r)).take
          ((cfg.hiddenSize / cfg.totalNumHeads) * (cfg.totalNumHeads / cfg.worldSize)) := by
  rw [headRange, listSlice]
  set hS := cfg.hiddenSize / cfg.totalNumHeads
  set nH := cfg.totalNumHeads / cfg.worldSize
  have h1 : hS * (r * nH) = hS * nH * r := by ring
  rw [h1]
  have h2 : hS * ((r + 1) * nH) - hS * nH * r = hS * nH := by
    have h3 : hS * ((r + 1) * nH) = hS * nH * r + hS * nH := by ring
    omega
  rw [h2]

theorem listSlice_append_adjacent {α : Type} (a k : ℕ) (l : List α) :
    listSlice a (a + k) l ++ listSlice (a + k) (a + 2 * k) l = listSlice a (a + 2 * k) l := by
  rw [listSlice, listSlice, listSlice]
  have h1 : a + k - a = k := by omega
  have h2 : a + 2 * k - (a + k) = k := by omega
  have h3 : a + 2 * k - a = k + k := by omega
  have h4 : l.drop (a + k) = (l.drop a).drop k := by
    rw [List.drop_drop, Nat.add_comm]
  rw [h1, h2, h3, h4, List.take_add]

theorem headRange_wq_length (cfg : ShardCfg) (w : Mat) (r : ℕ)
    (hlen : cfg.hiddenSize ≤ w.length)
    (hheads : cfg.totalNumHeads ∣ cfg.hiddenSize)
    (hworld : cfg.worldSize ∣ cfg.totalNumHeads)
    (hr : r < cfg.worldSize) :
    (headRange cfg r (wqBlock cfg w)).length
      = (cfg.hiddenSize / cfg.totalNumHeads) * (cfg.totalNumHeads / cfg.worldSize) := by
  have e1 : (cfg.totalNumHeads / cfg.worldSize) * cfg.worldSize = cfg.totalNumHeads :=
    Nat.div_mul_cancel hworld
  have e2 : (cfg.hiddenSize / cfg.totalNumHeads) * cfg.totalNumHeads = cfg.hiddenSize :=
    Nat.div_mul_cancel hheads
  have hcw : (cfg.hiddenSize / cfg.totalNumHeads) * (cfg.totalNumHeads / cfg.worldSize) *
      cfg.worldSize = cfg.hiddenSize := by
    rw [mul_assoc, e1, e2]
  have hwq : (wqBlock cfg w).length = cfg.hiddenSize := by
    rw [wqBlock, listSlice]
    simp [hlen]
  rw [headRange_eq, List.length_take, List.length_drop, hwq]
  set c := (cfg.hiddenSize / cfg.totalNumHeads) * (cfg.totalNumHeads / cfg.worldSize)
  have hub : c * (r + 1) ≤ c * cfg.worldSize := Nat.mul_le_mul_left c hr
  rw [hcw] at hub
  have : c * (r + 1) = c * r + c := by ring
  omega

/-! ## Claim theorems -/

/-- C2: the `adjusted_row_indices[mask]` positions computed in bmm mode
(in-sequence cumulative-mask index plus exclusive cumulative-sum start
offset) enumerate, in row-major order, exactly the distinct flat row slots
`0, 1, ..., sum(lengths) - 1`: no collisions and no gaps over valid rows.
Scattering the flat hidden rows into the zero-initialized rectangular
tensor at those slots and gathering them back at the same slots returns the
original flat tensor exactly, so padding rows never appear in the gathered
output. -/
theorem repacking_bijection (lengths : List ℕ) (hiddenSize : ℕ) (flat : Mat)
    (hlen : flat.length = lengths.sum) :
    maskedIndexList lengths (maxList lengths)
        = (List.range lengths.sum).map (fun t : ℕ => (t : ℤ))
    ∧ (maskedIndexList lengths (maxList lengths)).Nodup
    ∧ gatherRows
        (scatterRows (lengths.length * maxList lengths) hiddenSize
          (maskedIndexList lengths (maxList lengths)) flat)
        (maskedIndexList lengths (maxList lengths)) = flat := by
  have heq := maskedIndexList_eq_range lengths
  refine ⟨heq, ?_, ?_⟩
  · rw [heq]
    exact List.Nodup.map (fun a b hab => by exact_mod_cast hab) (List.nodup_range _)
  · rw [heq, ← hlen]
    have hle : flat.length ≤ lengths.length * maxList lengths := by
      rw [hlen]
      exact sum_le_mul_maxList lengths
    rw [scatterRows_range _ _ flat hle]
    exact gatherRows_scatter flat _

theorem repacking_bijection_witness :
    (wFlat.length = ([3, 2] : List ℕ).sum)
    ∧ (maskedIndexList [3, 2] (maxList [3, 2])
          = (List.range (([3, 2] : List ℕ).sum)).map (fun t : ℕ => (t : ℤ))
      ∧ (maskedIndexList [3, 2] (maxList [3, 2])).Nodup
      ∧ gatherRows
          (scatterRows (([3, 2] : List ℕ).length * maxList [3, 2]) 1
            (maskedIndexList [3, 2] (maxList [3, 2]))
            wFlat)
          (maskedIndexList [3, 2] (maxList [3, 2])) = wFlat) :=
  ⟨by decide, repacking_bijection [3, 2] 1 wFlat (by decide)⟩

/-- C4: for every batch shape produced by the bmm-mode branch (adjusted
lengths with the padding absorbed into the last one, or all-ones lengths
when `num_prompts == 0`), the validity mask `mask[b, t] = t < lengths[b]`
has exactly `sum(lengths)` True entries, and this count never exceeds
`batch_size * max_seq_length`. -/
theorem mask_coverage (numPrompts : ℕ) (promptLens : List ℕ) (totalRows numValidTokens : ℕ)
    (batchSize maxSeqLength : ℕ) (lengths : List ℕ)
    (hcons : 0 < numPrompts → promptLens.length = numPrompts)
    (hshape : bmmBatchShape numPrompts promptLens totalRows numValidTokens
        = some (batchSize, maxSeqLength, lengths)) :
    maskTrueCount lengths maxSeqLength = lengths.sum
    ∧ maskTrueCount lengths maxSeqLength ≤ batchSize * maxSeqLength := by
  rw [bmmBatchShape.eq_def] at hshape
  by_cases hnp : 0 < numPrompts
  · rw [if_pos hnp] at hshape
    cases promptLens with
    | nil => exact absurd hshape (by simp)
    | cons a l =>
      simp only [Option.some.injEq, Prod.mk.injEq] at hshape
      obtain ⟨rfl, rfl, rfl⟩ := hshape
      constructor
      · exact maskTrueCount_eq_sum _ _ (le_maxList _)
      · have hc := maskTrueCount_le (adjustLast (a :: l) (totalRows - numValidTokens))
          (maxList (adjustLast (a :: l) (totalRows - numValidTokens)))
        rw [adjustLast_length] at hc
        rw [← hcons hnp]
        exact hc
  · rw [if_neg hnp] at hshape
    simp only [Option.some.injEq, Prod.mk.injEq] at hshape
    obtain ⟨rfl, rfl, rfl⟩ := hshape
    constructor
    · apply maskTrueCount_eq_sum
      intro x hx
      rw [List.eq_of_mem_replicate hx]
    · have hc := maskTrueCount_le (List.replicate totalRows 1) 1
      simpa using hc

theorem mask_coverage_witness :
    ((0 : ℕ) < 1 → ([2] : List ℕ).length = 1)
    ∧ bmmBatchShape 1 [2] 3 2 = some (1, 3, [3])
    ∧ (maskTrueCount [3] 3 = ([3] : List ℕ).sum ∧ maskTrueCount [3] 3 ≤ 1 * 3) :=
  ⟨by decide, by decide, mask_coverage 1 [2] 3 2 1 3 [3] (by decide) (by decide)⟩

/-- C3: the concatenation of all partitions' query shards in rank order
reconstructs the original query block exactly; in multi-query mode every
partition's shard keeps the query slice separate from the full, identical
(unsliced) key/value block; in non-multi-query mode key and value are
sliced with the same head range as the query and the three slices are
re-fused into one tensor. -/
theorem qkv_shard_reconstruction (cfg : ShardCfg) (w : Mat)
    (hlen : cfg.hiddenSize ≤ w.length)
    (hheads : cfg.totalNumHeads ∣ cfg.hiddenSize)
    (hworld : cfg.worldSize ∣ cfg.totalNumHeads) :
    ((List.range cfg.worldSize).map (fun r => qShard cfg r w)).flatten = wqBlock cfg w
    ∧ (cfg.multiQuery = true → ∀ r, shardCAttnWeight cfg r w
        = ShardedQKV.separate (headRange cfg r (wqBlock cfg w))
            (listSlice cfg.hiddenSize (cfg.hiddenSize + 2 * totalKvSizeOf cfg) w))
    ∧ (cfg.multiQuery = false → ∀ r, shardCAttnWeight cfg r w
        = ShardedQKV.fused
            (headRange cfg r (wqBlock cfg w) ++ headRange cfg r (wkBlock cfg w) ++
             headRange cfg r (wvBlock cfg w))) := by
  have e1 : (cfg.totalNumHeads / cfg.worldSize) * cfg.worldSize = cfg.totalNumHeads :=
    Nat.div_mul_cancel hworld
  have e2 : (cfg.hiddenSize / cfg.totalNumHeads) * cfg.totalNumHeads = cfg.hiddenSize :=
    Nat.div_mul_cancel hheads
  have hcw : (cfg.hiddenSize / cfg.totalNumHeads) * (cfg.totalNumHeads / cfg.worldSize) *
      cfg.worldSize = cfg.hiddenSize := by
    rw [mul_assoc, e1, e2]
  have hwq : (wqBlock cfg w).length = cfg.hiddenSize := by
    rw [wqBlock, listSlice]
    simp [hlen]
  refine ⟨?_, ?_, ?_⟩
  · have hmap : (List.range cfg.worldSize).map (fun r => qShard cfg r w)
        = (List.range cfg.worldSize).map (fun r =>
            ((wqBlock cfg w).drop
              ((cfg.hiddenSize / cfg.totalNumHeads) * (cfg.totalNumHeads / cfg.worldSize) * r)).take
              ((cfg.hiddenSize / cfg.totalNumHeads) * (cfg.totalNumHeads / cfg.worldSize))) := by
      apply List.map_eq_map_iff.mpr
      intro r hr
      have hrlt : r < cfg.worldSize := List.mem_range.mp hr
      rw [qShard]
      cases hmq : cfg.multiQuery with
      | true =>
        rw [shardCAttnWeight, if_pos hmq]
        exact headRange_eq cfg r (wqBlock cfg w)
      | false =>
        rw [shardCAttnWeight, if_neg (by rw [hmq]; exact Bool.false_ne_true)]
        show (headRange cfg r (wqBlock cfg w) ++ headRange cfg r (wkBlock cfg w) ++
            headRange cfg r (wvBlock cfg w)).take
            ((cfg.hiddenSize / cfg.totalNumHeads) * (cfg.totalNumHeads / cfg.worldSize)) = _
        rw [List.append_assoc,
          List.take_left' (headRange_wq_length cfg w r hlen hheads hworld hrlt)]
        exact headRange_eq cfg r (wqBlock cfg w)
    rw [hmap]
    apply flatten_chunks
    rw [hwq]
    exact hcw.symm
  · intro hmq r
    rw [shardCAttnWeight, if_pos hmq, wkBlock, wvBlock]
    rw [listSlice_append_adjacent cfg.hiddenSize (totalKvSizeOf cfg) w]
  · intro hmq r
    rw [shardCAttnWeight, if_neg (by rw [hmq]; exact Bool.false_ne_true)]

theorem qkv_shard_reconstruction_witness :
    (wShardCfg.hiddenSize ≤ wShardW.length ∧ wShardCfg.totalNumHeads ∣ wShardCfg.hiddenSize
      ∧ wShardCfg.worldSize ∣ wShardCfg.totalNumHeads)
    ∧ (((List.range wShardCfg.worldSize).map (fun r => qShard wShardCfg r wShardW)).flatten
          = wqBlock wShardCfg wShardW
      ∧ (wShardCfg.multiQuery = true → ∀ r, shardCAttnWeight wShardCfg r wShardW
          = ShardedQKV.separate (headRange wShardCfg r (wqBlock wShardCfg wShardW))
              (listSlice wShardCfg.hiddenSize
                (wShardCfg.hiddenSize + 2 * totalKvSizeOf wShardCfg) wShardW))
      ∧ (wShardCfg.multiQuery = false → ∀ r, shardCAttnWeight wShardCfg r wShardW
          = ShardedQKV.fused
              (headRange wShardCfg r (wqBlock wShardCfg wShardW) ++
               headRange wShardCfg r (wkBlock wShardCfg wShardW) ++
               headRange wShardCfg r (wvBlock wShardCfg wShardW)))) :=
  ⟨⟨by decide, by decide, by decide⟩,
   qkv_shard_reconstruction wShardCfg wShardW (by decide) (by decide) (by decide)⟩

/-- C5: the padded vocabulary size `((v + 63) // 64) * 64` computed at model
construction is the smallest multiple of 64 greater than or equal to the
original vocabulary size `v`, and it equals `v` exactly when `v` is already
a multiple of 64. -/
theorem vocab_padding (v : ℕ) :
    64 ∣ paddedVocabSize v ∧ v ≤ paddedVocabSize v
    ∧ (∀ m : ℕ, 64 ∣ m → v ≤ m → paddedVocabSize v ≤ m)
    ∧ (64 ∣ v → paddedVocabSize v = v) := by
  have hq := Nat.div_add_mod (v + 63) 64
  have hr : (v + 63) % 64 < 64 := Nat.mod_lt _ (by norm_num)
  refine ⟨⟨(v + 63) / 64, mul_comm _ _⟩, ?_, ?_, ?_⟩
  · rw [paddedVocabSize]
    omega
  · intro m hm hvm
    obtain ⟨k, rfl⟩ := hm
    rw [paddedVocabSize]
    omega
  · intro hv
    obtain ⟨k, rfl⟩ := hv
    rw [paddedVocabSize]
    omega

theorem vocab_padding_witness :
    64 ∣ paddedVocabSize 50257 ∧ 50257 ≤ paddedVocabSize 50257
    ∧ paddedVocabSize 50257 ≤ 50304 ∧ paddedVocabSize 50304 = 50304 :=
  ⟨(vocab_padding 50257).1, (vocab_padding 50257).2.1,
   (vocab_padding 50257).2.2.1 50304 (by norm_num) (by norm_num),
   (vocab_padding 50304).2.2.2 (by norm_num)⟩

/-- C6 counterexample: at `hidden_size = 10`, `total_num_heads = 3`,
`world_size = 1` the hidden size is not divisible by the head count, yet
construction succeeds — the code never checks that divisibility, so the
claim "construction fails whenever hidden size is not evenly divisible by
the head count" is false. -/
theorem attn_init_no_hidden_size_check :
    attnInitChecks 10 3 1 true
        = Except.ok { numHeads := 3, headDim := 3, numKvHeads := 1, kvDim := 3 }
    ∧ 10 % 3 ≠ 0 :=
  ⟨rfl, by decide⟩

/-- C6 amended: construction of the attention sub-module fails iff the total
head count is not evenly divisible by the partition count (the line-55
assert) or the integer head dimension `hidden_size // total_num_heads` is
zero (making `head_dim ** -0.5` a division by zero).  Divisibility of the
hidden size by the head count is never checked. -/
theorem attn_init_checks_spec (hiddenSize totalNumHeads worldSize : ℕ) (multiQuery : Bool) :
    (∃ cfg, attnInitChecks hiddenSize totalNumHeads worldSize multiQuery = Except.ok cfg)
      ↔ (totalNumHeads % worldSize = 0 ∧ hiddenSize / totalNumHeads ≠ 0) := by
  rw [attnInitChecks]
  by_cases h1 : totalNumHeads % worldSize ≠ 0
  · simp [h1]
  · push_neg at h1
    by_cases h2 : hiddenSize / totalNumHeads = 0
    · simp [h1, h2]
    · simp [h1, h2]

/-! ## Helper lemmas: the staged forward passes -/

theorem exceptBind_ok {ε α β : Type} (a : α) (f : α → Except ε β) :
    (Except.ok a : Except ε α) >>= f = f a := rfl

theorem exceptBind_err {ε α β : Type} (e : ε) (f : α → Except ε β) :
    (Except.error e : Except ε α) >>= f = Except.error e := rfl

theorem ofOpt_some {α : Type} (a : α) (e : FwdError) : ofOpt (some a) e = Except.ok a := rfl

theorem ofOpt_none {α : Type} (e : FwdError) : ofOpt (none : Option α) e = Except.error e := rfl

theorem exists_of_except_map {ε α β : Type} {x : Except ε α} {f : α → β} {y : β}
    (h : x.map f = Except.ok y) : ∃ a, x = Except.ok a ∧ f a = y := by
  cases x with
  | error e => simp [Except.map] at h
  | ok a =>
    refine ⟨a, rfl, ?_⟩
    simpa [Except.map] using h

theorem set_mode_bmm_eq (self : GPTBigCodeAttention) (r : ℕ) (g : ℕ → ℕ → ℕ → ℕ → ℚ) :
    GPTBigCodeAttention.set_mode self ("bmm") r g
      = { self with mode := "bmm", rank := r, params := (AttnAdapterParams.bmmParams
            (randnMat (g 0) self.hiddenSize r)
            (randnMat (g 1) r self.hiddenSize)
            (randnMat (g 2) self.hiddenSize r)
            (randnMat (g 3) r (2 * self.kvDim))
            (randnMat (g 4) self.hiddenSize r)
            (randnMat (g 5) r self.hiddenSize)) } := by
  rw [GPTBigCodeAttention.set_mode, if_pos rfl]

theorem set_mode_flora_eq (self : GPTBigCodeAttention) (r : ℕ) (g : ℕ → ℕ → ℕ → ℕ → ℚ) :
    GPTBigCodeAttention.set_mode self ("flora") r g
      = { self with mode := "flora", rank := r, params := (AttnAdapterParams.floraParams
            (randnT3 (g 0) r 10 self.hiddenSize)
            (randnT3 (g 1) r 10 self.hiddenSize)
            (randnT3 (g 2) r 10 self.hiddenSize)
            (randnT3 (g 3) r 10 (2 * self.kvDim))
            (randnT3 (g 4) r 10 self.hiddenSize)
            (randnT3 (g 5) r 10 self.hiddenSize)) } := by
  rw [GPTBigCodeAttention.set_mode, if_neg (by decide), if_pos rfl]

theorem set_mode_other_eq (self : GPTBigCodeAttention) (m : String) (r : ℕ)
    (g : ℕ → ℕ → ℕ → ℕ → ℚ) (h1 : m ≠ "bmm") (h2 : m ≠ "flora") :
    GPTBigCodeAttention.set_mode self m r g = { self with mode := m, rank := r } := by
  rw [GPTBigCodeAttention.set_mode, if_neg h1, if_neg h2]

theorem mlp_set_mode_bmm_eq (self : GPTBigMLP) (r : ℕ) (g : ℕ → ℕ → ℕ → ℕ → ℚ) :
    GPTBigMLP.set_mode self ("bmm") r g
      = { self with mode := "bmm", rank := r, params := (MlpAdapterParams.bmmParams
            (randnMat (g 0) self.hiddenSize r)
            (randnMat (g 1) r self.intermediateSize)
            (randnMat (g 2) self.intermediateSize r)
            (randnMat (g 3) r self.hiddenSize)) } := by
  rw [GPTBigMLP.set_mode, if_pos rfl]

theorem mlp_set_mode_flora_eq (self : GPTBigMLP) (r : ℕ) (g : ℕ → ℕ → ℕ → ℕ → ℚ) :
    GPTBigMLP.set_mode self ("flora") r g
      = { self with mode := "flora", rank := r, params := (MlpAdapterParams.floraParams
            (randnT3 (g 0) r 10 self.hiddenSize)
            (randnT3 (g 1) r 10 self.intermediateSize)
            (randnT3 (g 2) r 10 self.intermediateSize)
            (randnT3 (g 3) r 10 self.hiddenSize)) } := by
  rw [GPTBigMLP.set_mode, if_neg (by decide), if_pos rfl]

theorem mlp_set_mode_other_eq (self : GPTBigMLP) (m : String) (r : ℕ)
    (g : ℕ → ℕ → ℕ → ℕ → ℚ) (h1 : m ≠ "bmm") (h2 : m ≠ "flora") :
    GPTBigMLP.set_mode self m r g = { self with mode := m, rank := r } := by
  rw [GPTBigMLP.set_mode, if_neg h1, if_neg h2]

theorem attnNormalOut_congr (env : AttnEnv) (s1 s2 : GPTBigCodeAttention) (rows : Mat)
    (h1 : s1.multiQuery = s2.multiQuery) (h2 : s1.kvDim = s2.kvDim)
    (h3 : s1.hiddenSize = s2.hiddenSize) (h4 : s1.worldSize = s2.worldSize) :
    attnNormalOut env s1 rows = attnNormalOut env s2 rows := by
  rw [attnNormalOut, attnNormalOut, attnQKVDisabled, attnQKVDisabled, h1, h2, h3, h4]

theorem attnStage1_not_bmm (self : GPTBigCodeAttention) (rows : Mat) (meta : InputMetadata)
    (h : self.mode ≠ "bmm") : attnStage1 self rows meta = Except.ok none := by
  rw [attnStage1, if_neg h]

theorem attnStage1_bmm_some (self : GPTBigCodeAttention) (rows : Mat) (meta : InputMetadata)
    (hmode : self.mode = "bmm") (A B C D E F : Mat)
    (hp : self.params = AttnAdapterParams.bmmParams A B C D E F)
    (hpl : 0 < meta.numPrompts → meta.promptLens ≠ []) :
    ∃ pre, attnStage1 self rows meta = Except.ok (some pre) := by
  rw [attnStage1, if_pos hmode, hp]
  obtain ⟨⟨b, T, lens⟩, ht⟩ :=
    bmmBatchShape_isSome meta.numPrompts meta.promptLens rows.length meta.numValidTokens hpl
  rw [ht]
  exact ⟨_, rfl⟩

theorem attnStage2_not_flora (self : GPTBigCodeAttention) (env : AttnEnv) (hs : HTensor)
    (meta : InputMetadata) (h : self.mode ≠ "flora") :
    attnStage2 self env hs meta = Except.ok (attnQKVDisabled env self hs.rows) := by
  rw [attnStage2, attnQKVDisabled]
  cases hmq : self.multiQuery
  · simp [h]
  · rw [if_pos rfl, if_neg h, if_pos rfl]

theorem attnStage3_not_flora_out (self : GPTBigCodeAttention) (env : AttnEnv)
    (pre : Option (ℕ × ℕ × List ℤ × Tensor3 × Mat × Mat)) (meta : InputMetadata) (ao : Mat)
    (h : self.mode ≠ "flora") :
    ∃ o, attnStage3 self env pre meta ao = Except.ok o ∧ o.out = ao.map env.cProj := by
  rw [attnStage3.eq_def, if_neg h]
  cases pre with
  | none => exact ⟨_, rfl, rfl⟩
  | some p =>
    obtain ⟨b, T, idx, g, E, F⟩ := p
    exact ⟨_, rfl, rfl⟩

theorem attnStage3_none (self : GPTBigCodeAttention) (env : AttnEnv) (meta : InputMetadata)
    (ao : Mat) (h : self.mode ≠ "flora") :
    attnStage3 self env none meta ao = Except.ok { out := ao.map env.cProj } := by
  rw [attnStage3.eq_def, if_neg h]

theorem attnStage2_flora (self : GPTBigCodeAttention) (env : AttnEnv) (hs : HTensor)
    (meta : InputMetadata)
    (hmode : self.mode = "flora") (hmq : self.multiQuery = true) (hnd : hs.ndim = 2)
    (hr : 1 ≤ self.rank) (A B C D E F : Tensor3)
    (hp : self.params = AttnAdapterParams.floraParams A B C D E F)
    (hA : ∀ cl ∈ A, ∀ i ∈ meta.indices, i < cl.length)
    (hB : ∀ cl ∈ B, ∀ i ∈ meta.indices, i < cl.length)
    (hC : ∀ cl ∈ C, ∀ i ∈ meta.indices, i < cl.length)
    (hD : ∀ cl ∈ D, ∀ i ∈ meta.indices, i < cl.length) :
    attnStage2 self env hs meta = Except.ok (attnQKVDisabled env self hs.rows) := by
  obtain ⟨gA, hgA⟩ := gatherIdx_isSome A meta.indices hA
  obtain ⟨gB, hgB⟩ := gatherIdx_isSome B meta.indices hB
  obtain ⟨gC, hgC⟩ := gatherIdx_isSome C meta.indices hC
  obtain ⟨gD, hgD⟩ := gatherIdx_isSome D meta.indices hD
  rw [attnStage2, attnQKVDisabled]
  simp only [hmode, hmq, hnd, hp, hgA, hgB, hgC, hgD, ofOpt_some, exceptBind_ok,
    if_true, ite_true, ne_eq, not_true_eq_false, if_false, ite_false, reduceIte,
    headD_map_replicate self.rank hr]

theorem attnStage3_flora_out (self : GPTBigCodeAttention) (env : AttnEnv)
    (pre : Option (ℕ × ℕ × List ℤ × Tensor3 × Mat × Mat)) (meta : InputMetadata) (ao : Mat)
    (hmode : self.mode = "flora") (hr : 1 ≤ self.rank) (A B C D E F : Tensor3)
    (hp : self.params = AttnAdapterParams.floraParams A B C D E F)
    (hE : ∀ cl ∈ E, ∀ i ∈ meta.indices, i < cl.length)
    (hF : ∀ cl ∈ F, ∀ i ∈ meta.indices, i < cl.length) :
    ∃ o, attnStage3 self env pre meta ao = Except.ok o ∧ o.out = ao.map env.cProj := by
  obtain ⟨gE, hgE⟩ := gatherIdx_isSome E meta.indices hE
  obtain ⟨gF, hgF⟩ := gatherIdx_isSome F meta.indices hF
  rw [attnStage3.eq_def, if_pos hmode]
  simp only [hp, hgE, hgF, ofOpt_some, exceptBind_ok]
  exact ⟨_, rfl, headD_map_replicate self.rank hr ao (fun m : Mat => m.map env.cProj) []⟩

theorem attn_forward_disabled (self : GPTBigCodeAttention) (env : AttnEnv) (hs : HTensor)
    (meta : InputMetadata) (h1 : self.mode ≠ "bmm") (h2 : self.mode ≠ "flora") :
    self.forward env hs meta = Except.ok { out := attnNormalOut env self hs.rows } := by
  rw [GPTBigCodeAttention.forward, attnStage1_not_bmm self hs.rows meta h1, exceptBind_ok,
    attnStage2_not_flora self env hs meta h2, exceptBind_ok,
    attnStage3_none self env meta _ h2, attnNormalOut]

theorem attn_forward_bmm_out (self : GPTBigCodeAttention) (env : AttnEnv) (hs : HTensor)
    (meta : InputMetadata) (hmode : self.mode = "bmm") (A B C D E F : Mat)
    (hp : self.params = AttnAdapterParams.bmmParams A B C D E F)
    (hpl : 0 < meta.numPrompts → meta.promptLens ≠ []) :
    (self.forward env hs meta).map (fun o => o.out)
      = Except.ok (attnNormalOut env self hs.rows) := by
  obtain ⟨pre, hpre⟩ := attnStage1_bmm_some self hs.rows meta hmode A B C D E F hp hpl
  have hnf : self.mode ≠ "flora" := by rw [hmode]; decide
  rw [GPTBigCodeAttention.forward, hpre, exceptBind_ok,
    attnStage2_not_flora self env hs meta hnf, exceptBind_ok]
  obtain ⟨o, ho, hout⟩ := attnStage3_not_flora_out self env (some pre) meta _ hnf
  rw [ho]
  simp [Except.map, hout, attnNormalOut]

theorem attn_forward_flora_out (self : GPTBigCodeAttention) (env : AttnEnv) (hs : HTensor)
    (meta : InputMetadata) (hmode : self.mode = "flora") (hmq : self.multiQuery = true)
    (hnd : hs.ndim = 2) (hr : 1 ≤ self.rank) (A B C D E F : Tensor3)
    (hp : self.params = AttnAdapterParams.floraParams A B C D E F)
    (hA : ∀ cl ∈ A, ∀ i ∈ meta.indices, i < cl.length)
    (hB : ∀ cl ∈ B, ∀ i ∈ meta.indices, i < cl.length)
    (hC : ∀ cl ∈ C, ∀ i ∈ meta.indices, i < cl.length)
    (hD : ∀ cl ∈ D, ∀ i ∈ meta.indices, i < cl.length)
    (hE : ∀ cl ∈ E, ∀ i ∈ meta.indices, i < cl.length)
    (hF : ∀ cl ∈ F, ∀ i ∈ meta.indices, i < cl.length) :
    (self.forward env hs meta).map (fun o => o.out)
      = Except.ok (attnNormalOut env self hs.rows) := by
  have hnb : self.mode ≠ "bmm" := by rw [hmode]; decide
  rw [GPTBigCodeAttention.forward, attnStage1_not_bmm self hs.rows meta hnb, exceptBind_ok,
    attnStage2_flora self env hs meta hmode hmq hnd hr A B C D E F hp hA hB hC hD, exceptBind_ok]
  obtain ⟨o, ho, hout⟩ :=
    attnStage3_flora_out self env none meta _ hmode hr A B C D E F hp hE hF
  rw [ho]
  simp [Except.map, hout, attnNormalOut]

theorem mlpStage1_not_bmm (self : GPTBigMLP) (rows : Mat) (meta : InputMetadata)
    (h : self.mode ≠ "bmm") : mlpStage1 self rows meta = Except.ok none := by
  rw [mlpStage1, if_neg h]

theorem mlpStage1_bmm_some (self : GPTBigMLP) (rows : Mat) (meta : InputMetadata)
    (hmode : self.mode = "bmm") (A B C D : Mat)
    (hp : self.params = MlpAdapterParams.bmmParams A B C D)
    (hpl : 0 < meta.numPrompts → meta.promptLens ≠ []) :
    ∃ pre, mlpStage1 self rows meta = Except.ok (some pre) := by
  rw [mlpStage1, if_pos hmode, hp]
  obtain ⟨⟨b, T, lens⟩, ht⟩ :=
    bmmBatchShape_isSome meta.numPrompts meta.promptLens rows.length meta.numValidTokens hpl
  rw [ht]
  exact ⟨_, rfl⟩

theorem mlpStage2_none (self : GPTBigMLP) (env : MlpEnv) (hs : HTensor) (meta : InputMetadata)
    (h : self.mode ≠ "flora") :
    mlpStage2 self env hs meta none = Except.ok { out := mlpNormalOut env hs.rows } := by
  rw [mlpStage2.eq_def, if_neg h, mlpNormalOut]

theorem mlpStage2_some_out (self : GPTBigMLP) (env : MlpEnv) (hs : HTensor)
    (meta : InputMetadata) (p : ℕ × ℕ × List ℤ × Tensor3 × Mat × Mat)
    (h : self.mode ≠ "flora") :
    ∃ o, mlpStage2 self env hs meta (some p) = Except.ok o
      ∧ o.out = mlpNormalOut env hs.rows := by
  rw [mlpStage2.eq_def, if_neg h]
  obtain ⟨b, T, idx, g, C, D⟩ := p
  exact ⟨_, rfl, rfl⟩

theorem mlpStage2_flora_out (self : GPTBigMLP) (env : MlpEnv) (hs : HTensor)
    (meta : InputMetadata) (pre : Option (ℕ × ℕ × List ℤ × Tensor3 × Mat × Mat))
    (hmode : self.mode = "flora") (hnd : hs.ndim = 2) (hr : 1 ≤ self.rank)
    (A B C D : Tensor3) (hp : self.params = MlpAdapterParams.floraParams A B C D)
    (hA : ∀ cl ∈ A, ∀ i ∈ meta.indices, i < cl.length)
    (hB : ∀ cl ∈ B, ∀ i ∈ meta.indices, i < cl.length)
    (hC : ∀ cl ∈ C, ∀ i ∈ meta.indices, i < cl.length)
    (hD : ∀ cl ∈ D, ∀ i ∈ meta.indices, i < cl.length) :
    ∃ o, mlpStage2 self env hs meta pre = Except.ok o
      ∧ o.out = mlpNormalOut env hs.rows := by
  obtain ⟨gA, hgA⟩ := gatherIdx_isSome A meta.indices hA
  obtain ⟨gB, hgB⟩ := gatherIdx_isSome B meta.indices hB
  obtain ⟨gC, hgC⟩ := gatherIdx_isSome C meta.indices hC
  obtain ⟨gD, hgD⟩ := gatherIdx_isSome D meta.indices hD
  rw [mlpStage2.eq_def, if_pos hmode]
  simp only [hnd, hp, hgA, hgB, hgC, hgD, ofOpt_some, exceptBind_ok,
    ne_eq, not_true_eq_false, if_false, ite_false, reduceIte,
    headD_map_replicate self.rank hr]
  refine ⟨_, rfl, ?_⟩
  simp [mlpNormalOut]

theorem mlp_forward_disabled (self : GPTBigMLP) (env : MlpEnv) (hs : HTensor)
    (meta : InputMetadata) (h1 : self.mode ≠ "bmm") (h2 : self.mode ≠ "flora") :
    self.forward env hs meta = Except.ok { out := mlpNormalOut env hs.rows } := by
  rw [GPTBigMLP.forward, mlpStage1_not_bmm self hs.rows meta h1, exceptBind_ok,
    mlpStage2_none self env hs meta h2]

theorem mlp_forward_bmm_out (self : GPTBigMLP) (env : MlpEnv) (hs : HTensor)
    (meta : InputMetadata) (hmode : self.mode = "bmm") (A B C D : Mat)
    (hp : self.params = MlpAdapterParams.bmmParams A B C D)
    (hpl : 0 < meta.numPrompts → meta.promptLens ≠ []) :
    (self.forward env hs meta).map (fun o => o.out)
      = Except.ok (mlpNormalOut env hs.rows) := by
  obtain ⟨pre, hpre⟩ := mlpStage1_bmm_some self hs.rows meta hmode A B C D hp hpl
  have hnf : self.mode ≠ "flora" := by rw [hmode]; decide
  rw [GPTBigMLP.forward, hpre, exceptBind_ok]
  obtain ⟨o, ho, hout⟩ := mlpStage2_some_out self env hs meta pre hnf
  rw [ho]
  simp [Except.map, hout]

theorem mlp_forward_flora_out (self : GPTBigMLP) (env : MlpEnv) (hs : HTensor)
    (meta : InputMetadata) (hmode : self.mode = "flora") (hnd : hs.ndim = 2)
    (hr : 1 ≤ self.rank) (A B C D : Tensor3)
    (hp : self.params = MlpAdapterParams.floraParams A B C D)
    (hA : ∀ cl ∈ A, ∀ i ∈ meta.indices, i < cl.length)
    (hB : ∀ cl ∈ B, ∀ i ∈ meta.indices, i < cl.length)
    (hC : ∀ cl ∈ C, ∀ i ∈ meta.indices, i < cl.length)
    (hD : ∀ cl ∈ D, ∀ i ∈ meta.indices, i < cl.length) :
    (self.forward env hs meta).map (fun o => o.out)
      = Except.ok (mlpNormalOut env hs.rows) := by
  have hnb : self.mode ≠ "bmm" := by rw [hmode]; decide
  rw [GPTBigMLP.forward, mlpStage1_not_bmm self hs.rows meta hnb, exceptBind_ok]
  obtain ⟨o, ho, hout⟩ :=
    mlpStage2_flora_out self env hs meta none hmode hnd hr A B C D hp hA hB hC hD
  rw [ho]
  simp [Except.map, hout]

theorem randnT3_cluster_lt (g : ℕ → ℕ → ℕ → ℚ) (d0 d2 : ℕ) (idx : List ℕ)
    (hidx : ∀ i ∈ idx, i < 10) :
    ∀ cl ∈ randnT3 g d0 10 d2, ∀ i ∈ idx, i < cl.length := by
  intro cl hcl i hi
  rw [randnT3_mem_length g d0 10 d2 cl hcl]
  exact hidx i hi

theorem block_forward_out_eq (attnM : GPTBigCodeAttention) (mlpM : GPTBigMLP)
    (aenv : AttnEnv) (menv : MlpEnv) (ln1 ln2 : Vec → Vec) (rows : Mat) (meta : InputMetadata)
    (hA : (attnM.forward aenv { ndim := 2, rows := rows.map ln1 } meta).map (fun o => o.out)
        = Except.ok (attnNormalOut aenv attnM (rows.map ln1)))
    (hM : ∀ hsrows : Mat,
        (mlpM.forward menv { ndim := 2, rows := hsrows } meta).map (fun o => o.out)
          = Except.ok (mlpNormalOut menv hsrows)) :
    GPTBigCodeBlock.forward attnM mlpM aenv menv ln1 ln2 rows meta
      = Except.ok (addMat (addMat (attnNormalOut aenv attnM (rows.map ln1)) rows)
          (mlpNormalOut menv
            ((addMat (attnNormalOut aenv attnM (rows.map ln1)) rows).map ln2))) := by
  obtain ⟨a, ha, haout⟩ := exists_of_except_map hA
  obtain ⟨f, hf, hfout⟩ := exists_of_except_map
    (hM ((addMat (attnNormalOut aenv attnM (rows.map ln1)) rows).map ln2))
  rw [GPTBigCodeBlock.forward]
  simp only [ha, exceptBind_ok, haout, hf, hfout]

/-- C1: a decoder block whose attention and MLP sub-modules are in the
disabled mode (empty string) produces exactly the same forward output as a
block whose sub-modules were set to mode `bmm` or to mode `flora` with the
same underlying weights: the adapter contribution tensors (`adapters_out`,
`plora1`, `plora2`) are computed but never added into the residual stream.
Hypotheses: the metadata is well formed (`prompt_lens` nonempty when
prompts are processed), the adapter rank is at least one, the block is
multi-query (non-multi-query flora raises NotImplementedError), and the
externally supplied cluster indices are in range. -/
theorem mode_isolation (aenv : AttnEnv) (menv : MlpEnv) (ln1 ln2 : Vec → Vec)
    (attn0 : GPTBigCodeAttention) (mlp0 : GPTBigMLP) (rows : Mat) (meta : InputMetadata)
    (r : ℕ) (rndA rndM : ℕ → ℕ → ℕ → ℕ → ℚ)
    (h0a : attn0.mode = "") (h0m : mlp0.mode = "")
    (hmq : attn0.multiQuery = true) (hr : 1 ≤ r)
    (hpl : 0 < meta.numPrompts → meta.promptLens ≠ [])
    (hidx : ∀ i ∈ meta.indices, i < 10) :
    GPTBigCodeBlock.forward (attn0.set_mode ("bmm") r rndA) (mlp0.set_mode ("bmm") r rndM)
        aenv menv ln1 ln2 rows meta
      = GPTBigCodeBlock.forward attn0 mlp0 aenv menv ln1 ln2 rows meta
    ∧ GPTBigCodeBlock.forward (attn0.set_mode ("flora") r rndA) (mlp0.set_mode ("flora") r rndM)
        aenv menv ln1 ln2 rows meta
      = GPTBigCodeBlock.forward attn0 mlp0 aenv menv ln1 ln2 rows meta := by
  have hbaseA : ∀ hsrows : Mat,
      (attn0.forward aenv { ndim := 2, rows := hsrows } meta).map (fun o => o.out)
        = Except.ok (attnNormalOut aenv attn0 hsrows) := by
    intro hsrows
    rw [attn_forward_disabled attn0 aenv { ndim := 2, rows := hsrows } meta
      (by rw [h0a]; decide) (by rw [h0a]; decide)]
    rfl
  have hbaseM : ∀ hsrows : Mat,
      (mlp0.forward menv { ndim := 2, rows := hsrows } meta).map (fun o => o.out)
        = Except.ok (mlpNormalOut menv hsrows) := by
    intro hsrows
    rw [mlp_forward_disabled mlp0 menv { ndim := 2, rows := hsrows } meta
      (by rw [h0m]; decide) (by rw [h0m]; decide)]
    rfl
  have hbase := block_forward_out_eq attn0 mlp0 aenv menv ln1 ln2 rows meta
    (hbaseA (rows.map ln1)) hbaseM
  constructor
  · -- bmm mode
    have e1 := set_mode_bmm_eq attn0 r rndA
    have e2 := mlp_set_mode_bmm_eq mlp0 r rndM
    have hA : ((attn0.set_mode ("bmm") r rndA).forward aenv
          { ndim := 2, rows := rows.map ln1 } meta).map (fun o => o.out)
        = Except.ok (attnNormalOut aenv (attn0.set_mode ("bmm") r rndA) (rows.map ln1)) :=
      attn_forward_bmm_out _ aenv _ meta (by rw [e1]) _ _ _ _ _ _ (by rw [e1]) hpl
    have hM : ∀ hsrows : Mat,
        ((mlp0.set_mode ("bmm") r rndM).forward menv { ndim := 2, rows := hsrows } meta).map
            (fun o => o.out)
          = Except.ok (mlpNormalOut menv hsrows) := fun hsrows =>
      mlp_forward_bmm_out _ menv _ meta (by rw [e2]) _ _ _ _ (by rw [e2]) hpl
    have hlhs := block_forward_out_eq _ _ aenv menv ln1 ln2 rows meta hA hM
    rw [hlhs, hbase]
    rw [attnNormalOut_congr aenv (attn0.set_mode ("bmm") r rndA) attn0 (rows.map ln1)
      (by rw [e1]) (by rw [e1]) (by rw [e1]) (by rw [e1])]
  · -- flora mode
    have e1 := set_mode_flora_eq attn0 r rndA
    have e2 := mlp_set_mode_flora_eq mlp0 r rndM
    have hA : ((attn0.set_mode ("flora") r rndA).forward aenv
          { ndim := 2, rows := rows.map ln1 } meta).map (fun o => o.out)
        = Except.ok (attnNormalOut aenv (attn0.set_mode ("flora") r rndA) (rows.map ln1)) :=
      attn_forward_flora_out _ aenv _ meta (by rw [e1]) (by rw [e1]; exact hmq) rfl
        (by rw [e1]; exact hr)
        (randnT3 (rndA 0) r 10 attn0.hiddenSize)
        (randnT3 (rndA 1) r 10 attn0.hiddenSize)
        (randnT3 (rndA 2) r 10 attn0.hiddenSize)
        (randnT3 (rndA 3) r 10 (2 * attn0.kvDim))
        (randnT3 (rndA 4) r 10 attn0.hiddenSize)
        (randnT3 (rndA 5) r 10 attn0.hiddenSize)
        (by rw [e1])
        (randnT3_cluster_lt (rndA 0) r attn0.hiddenSize meta.indices hidx)
        (randnT3_cluster_lt (rndA 1) r attn0.hiddenSize meta.indices hidx)
        (randnT3_cluster_lt (rndA 2) r attn0.hiddenSize meta.indices hidx)
        (randnT3_cluster_lt (rndA 3) r (2 * attn0.kvDim) meta.indices hidx)
        (randnT3_cluster_lt (rndA 4) r attn0.hiddenSize meta.indices hidx)
        (randnT3_cluster_lt (rndA 5) r attn0.hiddenSize meta.indices hidx)
    have hM : ∀ hsrows : Mat,
        ((mlp0.set_mode ("flora") r rndM).forward menv { ndim := 2, rows := hsrows } meta).map
            (fun o => o.out)
          = Except.ok (mlpNormalOut menv hsrows) := fun hsrows =>
      mlp_forward_flora_out _ menv _ meta (by rw [e2]) rfl (by rw [e2]; exact hr)
        (randnT3 (rndM 0) r 10 mlp0.hiddenSize)
        (randnT3 (rndM 1) r 10 mlp0.intermediateSize)
        (randnT3 (rndM 2) r 10 mlp0.intermediateSize)
        (randnT3 (rndM 3) r 10 mlp0.hiddenSize)
        (by rw [e2])
        (randnT3_cluster_lt (rndM 0) r mlp0.hiddenSize meta.indices hidx)
        (randnT3_cluster_lt (rndM 1) r mlp0.intermediateSize meta.indices hidx)
        (randnT3_cluster_lt (rndM 2) r mlp0.intermediateSize meta.indices hidx)
        (randnT3_cluster_lt (rndM 3) r mlp0.hiddenSize meta.indices hidx)
    have hlhs := block_forward_out_eq _ _ aenv menv ln1 ln2 rows meta hA hM
    rw [hlhs, hbase]
    rw [attnNormalOut_congr aenv (attn0.set_mode ("flora") r rndA) attn0 (rows.map ln1)
      (by rw [e1]) (by rw [e1]) (by rw [e1]) (by rw [e1])]

theorem attnStage2_flora_shape (self : GPTBigCodeAttention) (env : AttnEnv) (hs : HTensor)
    (meta : InputMetadata) (hmode : self.mode = "flora") (hmq : self.multiQuery = true)
    (hnd : hs.ndim ≠ 2) :
    attnStage2 self env hs meta = Except.error FwdError.shapeMismatch := by
  rw [attnStage2, if_pos hmq, if_pos hmode, if_pos hnd]

theorem attn_forward_flora_shape (self : GPTBigCodeAttention) (env : AttnEnv) (hs : HTensor)
    (meta : InputMetadata) (hmode : self.mode = "flora") (hmq : self.multiQuery = true)
    (hnd : hs.ndim ≠ 2) :
    self.forward env hs meta = Except.error FwdError.shapeMismatch := by
  have hnb : self.mode ≠ "bmm" := by rw [hmode]; decide
  rw [GPTBigCodeAttention.forward, attnStage1_not_bmm self hs.rows meta hnb, exceptBind_ok,
    attnStage2_flora_shape self env hs meta hmode hmq hnd, exceptBind_err]

theorem attnStage3_ne_shape (self : GPTBigCodeAttention) (env : AttnEnv)
    (pre : Option (ℕ × ℕ × List ℤ × Tensor3 × Mat × Mat)) (meta : InputMetadata) (ao : Mat) :
    attnStage3 self env pre meta ao ≠ Except.error FwdError.shapeMismatch := by
  rw [attnStage3.eq_def]
  by_cases hm : self.mode = "flora"
  · rw [if_pos hm]
    cases hp : self.params with
    | noParams => simp
    | bmmParams A B C D E F => simp
    | floraParams A B C D E F =>
      cases hgE : gatherIdx E meta.indices with
      | none => simp [hgE, ofOpt_none, exceptBind_err]
      | some gE =>
        cases hgF : gatherIdx F meta.indices with
        | none => simp [hgE, hgF, ofOpt_none, ofOpt_some, exceptBind_ok, exceptBind_err]
        | some gF => simp [hgE, hgF, ofOpt_some, exceptBind_ok]
  · rw [if_neg hm]
    cases pre with
    | none => simp
    | some p =>
      obtain ⟨b, T, idx, g, E, F⟩ := p
      simp

theorem attn_forward_flora_ne_shape (self : GPTBigCodeAttention) (env : AttnEnv) (hs : HTensor)
    (meta : InputMetadata) (hmode : self.mode = "flora") (hnd : hs.ndim = 2) :
    self.forward env hs meta ≠ Except.error FwdError.shapeMismatch := by
  have hnb : self.mode ≠ "bmm" := by rw [hmode]; decide
  rw [GPTBigCodeAttention.forward, attnStage1_not_bmm self hs.rows meta hnb, exceptBind_ok]
  cases hmq : self.multiQuery with
  | false =>
    have h2 : attnStage2 self env hs meta = Except.error FwdError.notImplemented := by
      rw [attnStage2, if_neg (by simp [hmq]), if_pos hmode]
    rw [h2, exceptBind_err]
    simp
  | true =>
    rw [attnStage2]
    simp only [hmq, hmode, hnd, if_true, ite_true, ne_eq, not_true_eq_false, if_false,
      ite_false, reduceIte]
    cases hp : self.params with
    | noParams => simp [hp, exceptBind_err]
    | bmmParams A B C D E F => simp [hp, exceptBind_err]
    | floraParams A B C D E F =>
      simp only [hp]
      cases hgA : gatherIdx A meta.indices with
      | none => simp [hgA, ofOpt_none, exceptBind_err]
      | some gA =>
        cases hgC : gatherIdx C meta.indices with
        | none => simp [hgA, hgC, ofOpt_none, ofOpt_some, exceptBind_ok, exceptBind_err]
        | some gC =>
          cases hgB : gatherIdx B meta.indices with
          | none => simp [hgA, hgC, hgB, ofOpt_none, ofOpt_some, exceptBind_ok, exceptBind_err]
          | some gB =>
            cases hgD : gatherIdx D meta.indices with
            | none =>
              simp [hgA, hgC, hgB, hgD, ofOpt_none, ofOpt_some, exceptBind_ok, exceptBind_err]
            | some gD =>
              simp only [hgA, hgC, hgB, hgD, ofOpt_some, exceptBind_ok]
              exact attnStage3_ne_shape self env none meta _

theorem mlp_forward_flora_shape (self : GPTBigMLP) (env : MlpEnv) (hs : HTensor)
    (meta : InputMetadata) (hmode : self.mode = "flora") (hnd : hs.ndim ≠ 2) :
    self.forward env hs meta = Except.error FwdError.shapeMismatch := by
  have hnb : self.mode ≠ "bmm" := by rw [hmode]; decide
  rw [GPTBigMLP.forward, mlpStage1_not_bmm self hs.rows meta hnb, exceptBind_ok,
    mlpStage2.eq_def, if_pos hmode, if_pos hnd]

theorem mlp_forward_flora_ne_shape (self : GPTBigMLP) (env : MlpEnv) (hs : HTensor)
    (meta : InputMetadata) (hmode : self.mode = "flora") (hnd : hs.ndim = 2) :
    self.forward env hs meta ≠ Except.error FwdError.shapeMismatch := by
  have hnb : self.mode ≠ "bmm" := by rw [hmode]; decide
  rw [GPTBigMLP.forward, mlpStage1_not_bmm self hs.rows meta hnb, exceptBind_ok,
    mlpStage2.eq_def, if_pos hmode]
  simp only [hnd, ne_eq, not_true_eq_false, if_false, ite_false, reduceIte]
  cases hp : self.params with
  | noParams => simp [hp]
  | bmmParams A B C D => simp [hp]
  | floraParams A B C D =>
    simp only [hp]
    cases hgA : gatherIdx A meta.indices with
    | none => simp [hgA, ofOpt_none, exceptBind_err]
    | some gA =>
      cases hgB : gatherIdx B meta.indices with
      | none => simp [hgA, hgB, ofOpt_none, ofOpt_some, exceptBind_ok, exceptBind_err]
      | some gB =>
        cases hgC : gatherIdx C meta.indices with
        | none => simp [hgA, hgB, hgC, ofOpt_none, ofOpt_some, exceptBind_ok, exceptBind_err]
        | some gC =>
          cases hgD : gatherIdx D meta.indices with
          | none =>
            simp [hgA, hgB, hgC, hgD, ofOpt_none, ofOpt_some, exceptBind_ok, exceptBind_err]
          | some gD => simp [hgA, hgB, hgC, hgD, ofOpt_some, exceptBind_ok]

theorem set_mode_preserves_fields (self : GPTBigCodeAttention) (m : String) (r : ℕ)
    (g : ℕ → ℕ → ℕ → ℕ → ℚ) :
    (GPTBigCodeAttention.set_mode self m r g).multiQuery = self.multiQuery
    ∧ (GPTBigCodeAttention.set_mode self m r g).hiddenSize = self.hiddenSize
    ∧ (GPTBigCodeAttention.set_mode self m r g).kvDim = self.kvDim
    ∧ (GPTBigCodeAttention.set_mode self m r g).worldSize = self.worldSize := by
  rw [GPTBigCodeAttention.set_mode]
  by_cases h1 : m = "bmm"
  · rw [if_pos h1]
    exact ⟨rfl, rfl, rfl, rfl⟩
  · rw [if_neg h1]
    by_cases h2 : m = "flora"
    · rw [if_pos h2]
      exact ⟨rfl, rfl, rfl, rfl⟩
    · rw [if_neg h2]
      exact ⟨rfl, rfl, rfl, rfl⟩

/-- C7: when the clustered (flora) adapter is invoked — flora mode on a
multi-query attention module, or flora mode on the MLP module — the forward
call returns the shape-mismatch error exactly when the input hidden-state
tensor is not two-dimensional; the check precedes every adapter
computation, so no other input property can produce that error. -/
theorem flora_shape_error (aenv : AttnEnv) (menv : MlpEnv) (am : GPTBigCodeAttention)
    (mm : GPTBigMLP) (hs : HTensor) (meta : InputMetadata)
    (hma : am.mode = "flora") (hmq : am.multiQuery = true) (hmm : mm.mode = "flora") :
    ((am.forward aenv hs meta = Except.error FwdError.shapeMismatch) ↔ hs.ndim ≠ 2)
    ∧ ((mm.forward menv hs meta = Except.error FwdError.shapeMismatch) ↔ hs.ndim ≠ 2) := by
  constructor
  · constructor
    · intro h
      by_contra hnd
      exact attn_forward_flora_ne_shape am aenv hs meta hma hnd h
    · intro hnd
      exact attn_forward_flora_shape am aenv hs meta hma hmq hnd
  · constructor
    · intro h
      by_contra hnd
      exact mlp_forward_flora_ne_shape mm menv hs meta hmm hnd h
    · intro hnd
      exact mlp_forward_flora_shape mm menv hs meta hmm hnd

theorem flora_shape_error_witness :
    ((wAttn0.set_mode ("flora") 1 wRnd).mode = "flora"
      ∧ (wAttn0.set_mode ("flora") 1 wRnd).multiQuery = true
      ∧ (wMlp0.set_mode ("flora") 1 wRnd).mode = "flora")
    ∧ ((((wAttn0.set_mode ("flora") 1 wRnd).forward wAttnEnv
            { ndim := 3, rows := wRows } wMeta = Except.error FwdError.shapeMismatch)
          ↔ ({ ndim := 3, rows := wRows } : HTensor).ndim ≠ 2)
      ∧ (((wMlp0.set_mode ("flora") 1 wRnd).forward wMlpEnv
            { ndim := 3, rows := wRows } wMeta = Except.error FwdError.shapeMismatch)
          ↔ ({ ndim := 3, rows := wRows } : HTensor).ndim ≠ 2)) :=
  ⟨⟨by decide, by decide, by decide⟩,
   flora_shape_error wAttnEnv wMlpEnv (wAttn0.set_mode ("flora") 1 wRnd)
     (wMlp0.set_mode ("flora") 1 wRnd) { ndim := 3, rows := wRows } wMeta
     (by decide) (by decide) (by decide)⟩

/-- C8 counterexample: after `set_mode("bmm", 1)` followed by `unset_mode`,
the adapter parameter matrices still exist on the module — `unset_mode`
only clears the mode string (lines 244-245), so the claim that the
matrices "no longer exist on the module" is false at this concrete
module. -/
theorem unset_mode_retains_params_cex :
    ((wAttn0.set_mode ("bmm") 1 wRnd).unset_mode).params ≠ AttnAdapterParams.noParams := by
  rw [set_mode_bmm_eq]
  simp [GPTBigCodeAttention.unset_mode]

/-- C8 amended: `unset_mode` resets the mode to the disabled state `""` —
a subsequent forward call follows the NORMAL path — but it discards
nothing: the adapter parameters created by `set_mode` remain on the module
(in particular they are never reset to the absent state after a `bmm` or
`flora` `set_mode`). -/
theorem unset_mode_behavior (attn0 : GPTBigCodeAttention) (mlp0 : GPTBigMLP)
    (m : String) (r : ℕ) (rndA rndM : ℕ → ℕ → ℕ → ℕ → ℚ)
    (aenv : AttnEnv) (menv : MlpEnv) (hs : HTensor) (meta : InputMetadata) :
    ((attn0.set_mode m r rndA).unset_mode).mode = ""
    ∧ ((attn0.set_mode m r rndA).unset_mode).params = (attn0.set_mode m r rndA).params
    ∧ ((attn0.set_mode ("bmm") r rndA).unset_mode).params ≠ AttnAdapterParams.noParams
    ∧ ((attn0.set_mode ("flora") r rndA).unset_mode).params ≠ AttnAdapterParams.noParams
    ∧ ((attn0.set_mode m r rndA).unset_mode).forward aenv hs meta
        = Except.ok { out := attnNormalOut aenv attn0 hs.rows }
    ∧ ((mlp0.set_mode m r rndM).unset_mode).mode = ""
    ∧ ((mlp0.set_mode m r rndM).unset_mode).params = (mlp0.set_mode m r rndM).params
    ∧ ((mlp0.set_mode ("bmm") r rndM).unset_mode).params ≠ MlpAdapterParams.noParams
    ∧ ((mlp0.set_mode ("flora") r rndM).unset_mode).params ≠ MlpAdapterParams.noParams
    ∧ ((mlp0.set_mode m r rndM).unset_mode).forward menv hs meta
        = Except.ok { out := mlpNormalOut menv hs.rows } := by
  obtain ⟨hf1, hf2, hf3, hf4⟩ := set_mode_preserves_fields attn0 m r rndA
  refine ⟨rfl, rfl, ?_, ?_, ?_, rfl, rfl, ?_, ?_, ?_⟩
  · rw [set_mode_bmm_eq]
    simp [GPTBigCodeAttention.unset_mode]
  · rw [set_mode_flora_eq]
    simp [GPTBigCodeAttention.unset_mode]
  · rw [attn_forward_disabled ((attn0.set_mode m r rndA).unset_mode) aenv hs meta
      (by rw [GPTBigCodeAttention.unset_mode]; show ("" : String) ≠ "bmm"; decide)
      (by rw [GPTBigCodeAttention.unset_mode]; show ("" : String) ≠ "flora"; decide)]
    rw [attnNormalOut_congr aenv ((attn0.set_mode m r rndA).unset_mode) attn0 hs.rows
      hf1 hf3 hf2 hf4]
  · rw [mlp_set_mode_bmm_eq]
    simp [GPTBigMLP.unset_mode]
  · rw [mlp_set_mode_flora_eq]
    simp [GPTBigMLP.unset_mode]
  · rw [mlp_forward_disabled ((mlp0.set_mode m r rndM).unset_mode) menv hs meta
      (by rw [GPTBigMLP.unset_mode]; show ("" : String) ≠ "bmm"; decide)
      (by rw [GPTBigMLP.unset_mode]; show ("" : String) ≠ "flora"; decide)]

/-- C9: the per-token cluster indices the flora-mode Peft entry point draws
with `torch.randint(0, 10, ...)` and writes into `input_metadata.indices`
all lie in `[0, 10)`, so every gather over the size-10 cluster axis of the
`set_mode("flora")`-created adapter tensors receives in-range indices and
the out-of-range gather error is unreachable for attention and MLP forward
calls made through this entry point. -/
theorem peft_flora_cluster_indices (n : ℕ) (g : ℕ → ℕ) (meta : InputMetadata)
    (aenv : AttnEnv) (menv : MlpEnv) (attn0 : GPTBigCodeAttention) (mlp0 : GPTBigMLP)
    (r : ℕ) (rndA rndM : ℕ → ℕ → ℕ → ℕ → ℚ) (rows : Mat) (hr : 1 ≤ r) :
    ((GPTBigCodeForCausalLMPeft.prepareIndices ("flora") n g meta).indices.all
        (fun i => decide (i < 10)) = true)
    ∧ (attn0.set_mode ("flora") r rndA).forward aenv { ndim := 2, rows := rows }
        (GPTBigCodeForCausalLMPeft.prepareIndices ("flora") n g meta)
        ≠ Except.error FwdError.gatherOutOfRange
    ∧ (mlp0.set_mode ("flora") r rndM).forward menv { ndim := 2, rows := rows }
        (GPTBigCodeForCausalLMPeft.prepareIndices ("flora") n g meta)
        ≠ Except.error FwdError.gatherOutOfRange := by
  have hidx : ∀ i ∈ (GPTBigCodeForCausalLMPeft.prepareIndices ("flora") n g meta).indices,
      i < 10 := by
    rw [GPTBigCodeForCausalLMPeft.prepareIndices, if_pos rfl]
    intro i hi
    obtain ⟨j, hj, rfl⟩ := List.mem_map.mp hi
    simpa using Nat.mod_lt (g j) (by norm_num : (0 : ℕ) < 10)
  have e1 := set_mode_flora_eq attn0 r rndA
  have e2 := mlp_set_mode_flora_eq mlp0 r rndM
  refine ⟨?_, ?_, ?_⟩
  · simp only [List.all_eq_true, decide_eq_true_eq]
    exact hidx
  · cases hmq : attn0.multiQuery with
    | true =>
      have h := attn_forward_flora_out (attn0.set_mode ("flora") r rndA) aenv
        { ndim := 2, rows := rows }
        (GPTBigCodeForCausalLMPeft.prepareIndices ("flora") n g meta)
        (by rw [e1]) (by rw [e1]; exact hmq) rfl (by rw [e1]; exact hr)
        (randnT3 (rndA 0) r 10 attn0.hiddenSize)
        (randnT3 (rndA 1) r 10 attn0.hiddenSize)
        (randnT3 (rndA 2) r 10 attn0.hiddenSize)
        (randnT3 (rndA 3) r 10 (2 * attn0.kvDim))
        (randnT3 (rndA 4) r 10 attn0.hiddenSize)
        (randnT3 (rndA 5) r 10 attn0.hiddenSize)
        (by rw [e1])
        (randnT3_cluster_lt (rndA 0) r attn0.hiddenSize _ hidx)
        (randnT3_cluster_lt (rndA 1) r attn0.hiddenSize _ hidx)
        (randnT3_cluster_lt (rndA 2) r attn0.hiddenSize _ hidx)
        (randnT3_cluster_lt (rndA 3) r (2 * attn0.kvDim) _ hidx)
        (randnT3_cluster_lt (rndA 4) r attn0.hiddenSize _ hidx)
        (randnT3_cluster_lt (rndA 5) r attn0.hiddenSize _ hidx)
      obtain ⟨a, ha, _⟩ := exists_of_except_map h
      rw [ha]
      simp
    | false =>
      have hmode : (attn0.set_mode ("flora") r rndA).mode = "flora" := by rw [e1]
      have hnb : (attn0.set_mode ("flora") r rndA).mode ≠ "bmm" := by
        rw [e1]
        show ("flora" : String) ≠ "bmm"
        decide
      rw [GPTBigCodeAttention.forward, attnStage1_not_bmm _ _ _ hnb, exceptBind_ok]
      have h2 : attnStage2 (attn0.set_mode ("flora") r rndA) aenv { ndim := 2, rows := rows }
          (GPTBigCodeForCausalLMPeft.prepareIndices ("flora") n g meta)
          = Except.error FwdError.notImplemented := by
        rw [attnStage2,
          if_neg (by rw [(set_mode_preserves_fields attn0 ("flora") r rndA).1, hmq]; simp),
          if_pos hmode]
      rw [h2, exceptBind_err]
      simp
  · have h := mlp_forward_flora_out (mlp0.set_mode ("flora") r rndM) menv
      { ndim := 2, rows := rows }
      (GPTBigCodeForCausalLMPeft.prepareIndices ("flora") n g meta)
      (by rw [e2]) rfl (by rw [e2]; exact hr)
      (randnT3 (rndM 0) r 10 mlp0.hiddenSize)
      (randnT3 (rndM 1) r 10 mlp0.intermediateSize)
      (randnT3 (rndM 2) r 10 mlp0.intermediateSize)
      (randnT3 (rndM 3) r 10 mlp0.hiddenSize)
      (by rw [e2])
      (randnT3_cluster_lt (rndM 0) r mlp0.hiddenSize _ hidx)
      (randnT3_cluster_lt (rndM 1) r mlp0.intermediateSize _ hidx)
      (randnT3_cluster_lt (rndM 2) r mlp0.intermediateSize _ hidx)
      (randnT3_cluster_lt (rndM 3) r mlp0.hiddenSize _ hidx)
    obtain ⟨a, ha, _⟩ := exists_of_except_map h
    rw [ha]
    simp

theorem peft_flora_cluster_indices_witness :
    ((1 : ℕ) ≤ 1)
    ∧ (((GPTBigCodeForCausalLMPeft.prepareIndices ("flora") 3 (fun i => i + 7) wMeta).indices.all
          (fun i => decide (i < 10)) = true)
      ∧ (wAttn0.set_mode ("flora") 1 wRnd).forward wAttnEnv { ndim := 2, rows := wRows }
          (GPTBigCodeForCausalLMPeft.prepareIndices ("flora") 3 (fun i => i + 7) wMeta)
          ≠ Except.error FwdError.gatherOutOfRange
      ∧ (wMlp0.set_mode ("flora") 1 wRnd).forward wMlpEnv { ndim := 2, rows := wRows }
          (GPTBigCodeForCausalLMPeft.prepareIndices ("flora") 3 (fun i => i + 7) wMeta)
          ≠ Except.error FwdError.gatherOutOfRange) :=
  ⟨le_refl 1,
   peft_flora_cluster_indices 3 (fun i => i + 7) wMeta wAttnEnv wMlpEnv wAttn0 wMlp0 1
     wRnd wRnd wRows (le_refl 1)⟩

/-- C10: `set_mode` with any mode string other than `bmm` and `flora`
(including the empty string) records the mode and rank but creates no
adapter parameter matrices, and a subsequent forward call computes exactly
the same output as a module whose mode was never set. -/
theorem set_mode_unknown_mode (m : String) (r : ℕ) (attn0 : GPTBigCodeAttention)
    (mlp0 : GPTBigMLP) (rndA rndM : ℕ → ℕ → ℕ → ℕ → ℚ) (aenv : AttnEnv) (menv : MlpEnv)
    (hs : HTensor) (meta : InputMetadata)
    (hm1 : m ≠ "bmm") (hm2 : m ≠ "flora") (h0a : attn0.mode = "") (h0m : mlp0.mode = "") :
    (attn0.set_mode m r rndA).mode = m ∧ (attn0.set_mode m r rndA).rank = r
    ∧ (attn0.set_mode m r rndA).params = attn0.params
    ∧ (attn0.set_mode m r rndA).forward aenv hs meta = attn0.forward aenv hs meta
    ∧ (mlp0.set_mode m r rndM).mode = m ∧ (mlp0.set_mode m r rndM).rank = r
    ∧ (mlp0.set_mode m r rndM).params = mlp0.params
    ∧ (mlp0.set_mode m r rndM).forward menv hs meta = mlp0.forward menv hs meta := by
  have e1 := set_mode_other_eq attn0 m r rndA hm1 hm2
  have e2 := mlp_set_mode_other_eq mlp0 m r rndM hm1 hm2
  refine ⟨by rw [e1], by rw [e1], by rw [e1], ?_, by rw [e2], by rw [e2], by rw [e2], ?_⟩
  · rw [attn_forward_disabled (attn0.set_mode m r rndA) aenv hs meta
      (by rw [e1]; exact hm1) (by rw [e1]; exact hm2)]
    rw [attn_forward_disabled attn0 aenv hs meta (by rw [h0a]; decide) (by rw [h0a]; decide)]
    rw [attnNormalOut_congr aenv (attn0.set_mode m r rndA) attn0 hs.rows
      (by rw [e1]) (by rw [e1]) (by rw [e1]) (by rw [e1])]
  · rw [mlp_forward_disabled (mlp0.set_mode m r rndM) menv hs meta
      (by rw [e2]; exact hm1) (by rw [e2]; exact hm2)]
    rw [mlp_forward_disabled mlp0 menv hs meta (by rw [h0m]; decide) (by rw [h0m]; decide)]

theorem set_mode_unknown_mode_witness :
    (("x" : String) ≠ "bmm" ∧ ("x" : String) ≠ "flora"
      ∧ wAttn0.mode = "" ∧ wMlp0.mode = "")
    ∧ ((wAttn0.set_mode ("x") 5 wRnd).mode = "x" ∧ (wAttn0.set_mode ("x") 5 wRnd).rank = 5
      ∧ (wAttn0.set_mode ("x") 5 wRnd).params = wAttn0.params
      ∧ (wAttn0.set_mode ("x") 5 wRnd).forward wAttnEnv { ndim := 2, rows := wRows } wMeta
          = wAttn0.forward wAttnEnv { ndim := 2, rows := wRows } wMeta
      ∧ (wMlp0.set_mode ("x") 5 wRnd).mode = "x" ∧ (wMlp0.set_mode ("x") 5 wRnd).rank = 5
      ∧ (wMlp0.set_mode ("x") 5 wRnd).params = wMlp0.params
      ∧ (wMlp0.set_mode ("x") 5 wRnd).forward wMlpEnv { ndim := 2, rows := wRows } wMeta
          = wMlp0.forward wMlpEnv { ndim := 2, rows := wRows } wMeta) :=
  ⟨⟨by decide, by decide, by decide, by decide⟩,
   set_mode_unknown_mode ("x") 5 wAttn0 wMlp0 wRnd wRnd wAttnEnv wMlpEnv
     { ndim := 2, rows := wRows } wMeta (by decide) (by decide) (by decide) (by decide)⟩

theorem mode_isolation_witness :
    (wAttn0.mode = "" ∧ wMlp0.mode = "" ∧ wAttn0.multiQuery = true ∧ (1 : ℕ) ≤ 1
      ∧ (0 < wMeta.numPrompts → wMeta.promptLens ≠ [])
      ∧ (∀ i ∈ wMeta.indices, i < 10))
    ∧ (GPTBigCodeBlock.forward (wAttn0.set_mode ("bmm") 1 wRnd) (wMlp0.set_mode ("bmm") 1 wRnd)
          wAttnEnv wMlpEnv (fun v => v) (fun v => v) wRows wMeta
        = GPTBigCodeBlock.forward wAttn0 wMlp0 wAttnEnv wMlpEnv (fun v => v) (fun v => v)
            wRows wMeta
      ∧ GPTBigCodeBlock.forward (wAttn0.set_mode ("flora") 1 wRnd)
          (wMlp0.set_mode ("flora") 1 wRnd)
          wAttnEnv wMlpEnv (fun v => v) (fun v => v) wRows wMeta
        = GPTBigCodeBlock.forward wAttn0 wMlp0 wAttnEnv wMlpEnv (fun v => v) (fun v => v)
            wRows wMeta) :=
  ⟨⟨rfl, rfl, rfl, le_refl 1, by decide, by decide⟩,
   mode_isolation wAttnEnv wMlpEnv (fun v => v) (fun v => v) wAttn0 wMlp0 wRows wMeta 1
     wRnd wRnd rfl rfl rfl (le_refl 1) (by decide) (by decide)⟩
